import Mathlib

/-!
Verification development for the SupplyChainPlanner repository.

The Python modules under solver/ are shallowly embedded here:
  - data_loader.py  : SupplyChainData and its lookup methods,
  - optimizer.py    : effective-cost scoring, the MILP model constraints,
    and the solve function (the external CBC engine is modelled as an
    oracle argument of type EngineResponse carrying the status string and
    the variable assignment it returns),
  - ranker.py       : composite scoring and the three-tier rank_flows,
  - knowledge_graph.py : the typed node/edge graph and impact_analysis.

Python floats are modelled as exact rationals, pandas DataFrames as lists
of records, and Python dicts built with dict(zip(ks, vs)) as last-wins
association lists.  Sorting in pandas and Python is modelled by a stable
insertion sort; round() is modelled by round-half-to-even on rationals.
-/

set_option maxRecDepth 4000

namespace SupplyChainPlanner

/-- Last-wins association-list lookup, the semantics of a Python dict
built by dict(zip(keys, values)) followed by .get. -/
def dictGet {α : Type} (pairs : List (String × α)) (k : String) : Option α :=
  (pairs.reverse.find? (fun p => p.1 == k)).map (fun p => p.2)

/-- dict.get(k, d): lookup with a default. -/
def dictGetD {α : Type} (pairs : List (String × α)) (k : String) (d : α) : α :=
  (dictGet pairs k).getD d

/-- pandas Series.min() over a nonempty column (0 on an empty one, a case
the embedded code never reaches). -/
def seriesMin : List ℚ → ℚ
  | [] => 0
  | x :: xs => xs.foldl min x

/-- pandas Series.max() over a nonempty column. -/
def seriesMax : List ℚ → ℚ
  | [] => 0
  | x :: xs => xs.foldl max x

/-- Python round(): round half to even on exact rationals. -/
def pyRound (q : ℚ) : ℤ :=
  if q - ((⌊q⌋ : ℤ) : ℚ) < 1/2 then ⌊q⌋
  else if 1/2 < q - ((⌊q⌋ : ℤ) : ℚ) then ⌊q⌋ + 1
  else if ⌊q⌋ % 2 = 0 then ⌊q⌋ else ⌊q⌋ + 1

/-- Python round(x, n): round half to even at n decimal digits. -/
def pyRoundTo (q : ℚ) (n : ℕ) : ℚ :=
  ((pyRound (q * (10 : ℚ) ^ n) : ℚ)) / (10 : ℚ) ^ n

/-- Insert into a sorted list, keeping the new element before any element
it compares less-or-equal to (the stable position). -/
def insertSorted {α : Type} (le : α → α → Bool) (a : α) : List α → List α
  | [] => [a]
  | b :: bs => if le a b then a :: b :: bs else b :: insertSorted le a bs

/-- Stable insertion sort; models pandas sort_values and Python sorted/list.sort. -/
def insertionSort {α : Type} (le : α → α → Bool) : List α → List α
  | [] => []
  | x :: xs => insertSorted le x (insertionSort le xs)

/-- pandas drop_duplicates(subset, keep=first): keep the first record with
each key. -/
def dropDuplicatesBy {α : Type} (key : α → String) : List α → List α
  | [] => []
  | x :: xs => x :: (dropDuplicatesBy key xs).filter (fun y => key y != key x)

/-- Lexicographic order on char lists by code point, the order Python uses
on strings. -/
def lexLe : List Char → List Char → Bool
  | [], _ => true
  | _ :: _, [] => false
  | a :: as, b :: bs =>
    if a.toNat < b.toNat then true
    else if b.toNat < a.toNat then false
    else lexLe as bs

/-- Python string comparison used by sorted() on strings. -/
def strLe (a b : String) : Bool := lexLe a.data b.data

/-- Insert a comma after every three chars of a reversed digit string;
models the grouping of a Python format spec with a comma. -/
def commaRev : List Char → List Char
  | [] => []
  | [a] => [a]
  | [a, b] => [a, b]
  | [a, b, c] => [a, b, c]
  | a :: b :: c :: d :: rest => a :: b :: c :: ',' :: commaRev (d :: rest)

/-- Python f-string formatting of an integer with thousands separators. -/
def fmtComma (n : ℤ) : String :=
  (if n < 0 then "-" else "") ++ String.mk ((commaRev (toString n.natAbs).data.reverse).reverse)

/-- One row of all_flows.csv: a candidate origin→hub→destination flow for a
category, with its cost breakdown, transit time and feasibility flags.
The effective_cost and composite_score fields model the DataFrame columns
of the same names added by optimizer.solve and ranker.rank_flows; they
default to 0 on a freshly loaded row. -/
structure Flow where
  category_id : String
  country_code : String
  factory_id : String
  hub_id : String
  manufacturing_cost : ℚ
  transport_cost : ℚ
  hub_handling_cost : ℚ
  last_mile_cost : ℚ
  tariff_pct : ℚ
  tariff_amount : ℚ
  total_landed_cost : ℚ
  transit_days : ℤ
  is_geopolitically_restricted : Bool
  is_lead_time_feasible : Bool
  effective_cost : ℚ := 0
  composite_score : ℚ := 0
deriving DecidableEq, Inhabited

/-- One row of regions.csv. -/
structure Region where
  region_id : String
  region_name : String
deriving DecidableEq

/-- One row of countries.csv. -/
structure Country where
  country_code : String
  country_name : String
  region_id : String
deriving DecidableEq

/-- One row of factories.csv (cost_multiplier is carried only as graph
display metadata and is not consulted by any embedded computation). -/
structure Factory where
  factory_id : String
  factory_name : String
  city : String
  country_code : String
  region_id : String
deriving DecidableEq

/-- One row of hubs.csv. -/
structure Hub where
  hub_id : String
  hub_name : String
  city : String
  country_code : String
  region_id : String
  monthly_throughput_capacity : ℤ
deriving DecidableEq

/-- One row of factory_category_capacity.csv. -/
structure CapacityRow where
  category_id : String
  factory_id : String
  monthly_capacity_units : ℤ
deriving DecidableEq

/-- One row of geopolitical_restrictions.csv. -/
structure Restriction where
  destination_country_code : String
  restricted_country_code : String
  restriction_type : String
  reason : String
deriving DecidableEq

/-- The loaded reference tables of data_loader.SupplyChainData (the tables
not consulted by the embedded core - products, categories, availability -
are omitted). -/
structure SupplyChainData where
  regions : List Region
  countries : List Country
  factories : List Factory
  hubs : List Hub
  factory_capacity : List CapacityRow
  all_flows : List Flow
  geopolitical : List Restriction
deriving DecidableEq

/-- data_loader.get_feasible_flows: flows of the requested category and
destination that are neither geopolitically restricted nor lead-time
infeasible. -/
def SupplyChainData.get_feasible_flows (data : SupplyChainData)
    (category_id country_code : String) : List Flow :=
  data.all_flows.filter (fun f =>
    f.category_id == category_id && f.country_code == country_code
      && f.is_geopolitically_restricted == false && f.is_lead_time_feasible == true)

/-- data_loader.get_factory_capacity: the factory→capacity dict for one
category, as an association list. -/
def SupplyChainData.get_factory_capacity (data : SupplyChainData)
    (category_id : String) : List (String × ℤ) :=
  (data.factory_capacity.filter (fun r => r.category_id == category_id)).map
    (fun r => (r.factory_id, r.monthly_capacity_units))

/-- data_loader.get_hub_throughput: the hub→throughput dict. -/
def SupplyChainData.get_hub_throughput (data : SupplyChainData) : List (String × ℤ) :=
  data.hubs.map (fun h => (h.hub_id, h.monthly_throughput_capacity))

/-- data_loader.get_region_for_country. -/
def SupplyChainData.get_region_for_country (data : SupplyChainData)
    (country_code : String) : Option String :=
  dictGet (data.countries.map (fun c => (c.country_code, c.region_id))) country_code

/-- data_loader.get_region_for_factory. -/
def SupplyChainData.get_region_for_factory (data : SupplyChainData)
    (factory_id : String) : Option String :=
  dictGet (data.factories.map (fun f => (f.factory_id, f.region_id))) factory_id

/-- data_loader.get_region_for_hub. -/
def SupplyChainData.get_region_for_hub (data : SupplyChainData)
    (hub_id : String) : Option String :=
  dictGet (data.hubs.map (fun h => (h.hub_id, h.region_id))) hub_id

/-- data_loader.factory_name (falls back to the id). -/
def SupplyChainData.factory_name (data : SupplyChainData) (factory_id : String) : String :=
  dictGetD (data.factories.map (fun f => (f.factory_id, f.factory_name))) factory_id factory_id

/-- data_loader.factory_city. -/
def SupplyChainData.factory_city (data : SupplyChainData) (factory_id : String) : String :=
  dictGetD (data.factories.map (fun f => (f.factory_id, f.city))) factory_id ""

/-- data_loader.factory_country. -/
def SupplyChainData.factory_country (data : SupplyChainData) (factory_id : String) : String :=
  dictGetD (data.factories.map (fun f => (f.factory_id, f.country_code))) factory_id ""

/-- data_loader.hub_name (falls back to the id). -/
def SupplyChainData.hub_name (data : SupplyChainData) (hub_id : String) : String :=
  dictGetD (data.hubs.map (fun h => (h.hub_id, h.hub_name))) hub_id hub_id

/-- data_loader.hub_city. -/
def SupplyChainData.hub_city (data : SupplyChainData) (hub_id : String) : String :=
  dictGetD (data.hubs.map (fun h => (h.hub_id, h.city))) hub_id ""

/-- data_loader.hub_country. -/
def SupplyChainData.hub_country (data : SupplyChainData) (hub_id : String) : String :=
  dictGetD (data.hubs.map (fun h => (h.hub_id, h.country_code))) hub_id ""

/-- optimizer.solve lines 78-81: min-max normalized landed cost of one flow
relative to the candidate set (0 for every flow when the range is 0). -/
def cost_norm (flows : List Flow) (f : Flow) : ℚ :=
  let cost_vals := flows.map (fun g => g.total_landed_cost)
  let cost_range := seriesMax cost_vals - seriesMin cost_vals
  if 0 < cost_range then (f.total_landed_cost - seriesMin cost_vals) / cost_range else 0

/-- optimizer.solve lines 84-86: min-max normalized transit days of one flow
relative to the candidate set. -/
def time_norm (flows : List Flow) (f : Flow) : ℚ :=
  let time_vals := flows.map (fun g => (g.transit_days : ℚ))
  let time_range := seriesMax time_vals - seriesMin time_vals
  if 0 < time_range then ((f.transit_days : ℚ) - seriesMin time_vals) / time_range else 0

/-- optimizer.solve lines 92-97: three-valued regional proximity penalty. -/
def regional_penalty (data : SupplyChainData) (country_code : String) (f : Flow) : ℚ :=
  let dest_region := data.get_region_for_country country_code
  if data.get_region_for_factory f.factory_id = dest_region then 0
  else if data.get_region_for_hub f.hub_id = dest_region then 1/2
  else 1

/-- optimizer.solve lines 99-107: the weighted composite score written into
the effective_cost column and minimized by the MILP. -/
def effective_cost (flows : List Flow) (data : SupplyChainData) (country_code : String)
    (cost_weight time_weight regional_weight : ℚ) (f : Flow) : ℚ :=
  let w_total := cost_weight + time_weight + regional_weight
  (cost_weight / w_total) * cost_norm flows f
    + (time_weight / w_total) * time_norm flows f
    + (regional_weight / w_total) * regional_penalty data country_code f

/-- ranker._compute_composite_scores, written out independently of the
optimizer formula: min-max normalization of cost and days, the same
three-valued regional penalty, and the weighted combination. -/
def composite_score (flows : List Flow) (data : SupplyChainData) (country_code : String)
    (cost_weight time_weight regional_weight : ℚ) (f : Flow) : ℚ :=
  let dest_region := data.get_region_for_country country_code
  let cost := flows.map (fun g => g.total_landed_cost)
  let days := flows.map (fun g => (g.transit_days : ℚ))
  let cost_range := seriesMax cost - seriesMin cost
  let days_range := seriesMax days - seriesMin days
  let cost_norm_val := if 0 < cost_range then (f.total_landed_cost - seriesMin cost) / cost_range else 0
  let days_norm_val := if 0 < days_range then ((f.transit_days : ℚ) - seriesMin days) / days_range else 0
  let reg_penalty :=
    if data.get_region_for_factory f.factory_id = dest_region then (0 : ℚ)
    else if data.get_region_for_hub f.hub_id = dest_region then 1/2
    else 1
  let w_total := cost_weight + time_weight + regional_weight
  (cost_weight / w_total) * cost_norm_val
    + (time_weight / w_total) * days_norm_val
    + (regional_weight / w_total) * reg_penalty

/-- optimizer.solve line 66: the early status when no feasible flow exists. -/
def noFeasibleStatus : String := "No feasible flows found"

/-- optimizer.solve lines 115-119: the early status when aggregate factory
capacity cannot cover the requested volume. -/
def insufficient_status (total_capacity volume : ℤ) : String :=
  "Infeasible: total factory capacity (" ++ fmtComma total_capacity
    ++ ") < volume (" ++ fmtComma volume ++ ")"

/-- One element of SolverResult.chosen_flows (optimizer.solve lines 199-213). -/
structure AllocationEntry where
  factory_id : String
  hub_id : String
  units_allocated : ℤ
  cost_per_unit : ℚ
  effective_cost_per_unit : ℚ
  total_cost : ℚ
  manufacturing_cost : ℚ
  transport_cost : ℚ
  hub_handling_cost : ℚ
  last_mile_cost : ℚ
  tariff_pct : ℚ
  tariff_amount : ℚ
  transit_days : ℤ
deriving DecidableEq, Inhabited

/-- optimizer.SolverResult. -/
structure SolverResult where
  status : String
  chosen_flows : List AllocationEntry := []
  total_cost : ℚ := 0
  total_units : ℤ := 0
  feasible_flows : List Flow := []
deriving DecidableEq, Inhabited

/-- The external MILP engine is an oracle: it hands back a status string
(one of the PuLP LpStatus values) and the values of the decision variables
x[i] and y[i], indexed by the position of flow i in the feasible list. -/
structure EngineResponse where
  status : String
  x : ℕ → ℚ
  y : ℕ → ℚ

/-- The options with which optimizer.solve line 177 constructs the CBC
command: message level 0 and no other argument, in particular no time
limit (the PULP_CBC_CMD timeLimit argument is left at its None default). -/
structure CBCSolverOptions where
  msg : ℕ
  timeLimit : Option ℚ
deriving DecidableEq

/-- The exact engine invocation of optimizer.solve line 177. -/
def pulp_cbc_cmd : CBCSolverOptions := { msg := 0, timeLimit := none }

/-- The five status strings of the PuLP LpStatus table, one of which is
surfaced verbatim by optimizer.solve lines 179-182. -/
def lpStatusStrings : List String :=
  ["Not Solved", "Optimal", "Infeasible", "Unbounded", "Undefined"]

/-- optimizer.solve line 103: write the effective_cost column. -/
def scoreFlows (data : SupplyChainData) (country_code : String)
    (cost_weight time_weight regional_weight : ℚ) (flows : List Flow) : List Flow :=
  flows.map (fun f =>
    { f with effective_cost :=
        effective_cost flows data country_code cost_weight time_weight regional_weight f })

/-- optimizer.solve line 112: the distinct factory ids of the feasible set. -/
def availableFactories (flows : List Flow) : List String :=
  (flows.map (fun f => f.factory_id)).dedup

/-- optimizer.solve line 152: the distinct hub ids of the feasible set. -/
def availableHubs (flows : List Flow) : List String :=
  (flows.map (fun f => f.hub_id)).dedup

/-- optimizer.solve line 113: summed capacity of the factories present in
the feasible set (missing factories contribute 0 via dict.get). -/
def totalFactoryCapacity (data : SupplyChainData) (category_id : String)
    (flows : List Flow) : ℤ :=
  ((availableFactories flows).map
    (fun f => dictGetD (data.get_factory_capacity category_id) f 0)).sum

/-- optimizer.solve lines 199-213: one allocation entry read off a solved flow. -/
def mkAllocationEntry (row : Flow) (units : ℤ) : AllocationEntry :=
  { factory_id := row.factory_id
    hub_id := row.hub_id
    units_allocated := units
    cost_per_unit := row.total_landed_cost
    effective_cost_per_unit := row.effective_cost
    total_cost := pyRoundTo ((units : ℚ) * row.total_landed_cost) 2
    manufacturing_cost := row.manufacturing_cost
    transport_cost := row.transport_cost
    hub_handling_cost := row.hub_handling_cost
    last_mile_cost := row.last_mile_cost
    tariff_pct := row.tariff_pct
    tariff_amount := row.tariff_amount
    transit_days := row.transit_days }

/-- optimizer.solve lines 191-213: keep each flow whose solver value
exceeds the 0.5 noise threshold, rounding its value to integer units. -/
def extractChosen (flows1 : List Flow) (engine : EngineResponse) : List AllocationEntry :=
  (List.range flows1.length).filterMap (fun i =>
    if 1/2 < engine.x i then
      some (mkAllocationEntry (flows1.getD i default) (pyRound (engine.x i)))
    else none)

/-- Descending comparison on allocated units (optimizer.solve line 218,
list.sort with reverse=True). -/
def unitsDescLe (a b : AllocationEntry) : Bool :=
  decide (b.units_allocated ≤ a.units_allocated)

/-- optimizer.solve: feasibility pre-checks, scoring, delegation to the
engine oracle, and result extraction.  min_batch only shapes the model
handed to the engine (see SatisfiesModelConstraints); the Python body
likewise never reads it after building the constraints. -/
def solve (data : SupplyChainData) (category_id country_code : String) (volume : ℤ)
    (cost_weight time_weight regional_weight : ℚ) (min_batch : ℤ)
    (engine : EngineResponse) : SolverResult :=
  let flows := data.get_feasible_flows category_id country_code
  if flows.isEmpty then { status := noFeasibleStatus }
  else
    let flows1 := scoreFlows data country_code cost_weight time_weight regional_weight flows
    let total_capacity := totalFactoryCapacity data category_id flows
    if total_capacity < volume then
      { status := insufficient_status total_capacity volume, feasible_flows := flows1 }
    else if engine.status ≠ "Optimal" then
      { status := engine.status, feasible_flows := flows1 }
    else
      let chosen := extractChosen flows1 engine
      { status := "Optimal"
        chosen_flows := insertionSort unitsDescLe chosen
        total_cost := pyRoundTo ((chosen.map
          (fun c => (c.units_allocated : ℚ) * c.cost_per_unit)).sum) 2
        total_units := (chosen.map (fun c => c.units_allocated)).sum
        feasible_flows := flows1 }

/-- Number of feasible flows (the size of the MILP variable families). -/
def feasibleCount (data : SupplyChainData) (category_id country_code : String) : ℕ :=
  (data.get_feasible_flows category_id country_code).length

/-- The feasible flow at position i (the row flows.loc[i]). -/
def flowAt (data : SupplyChainData) (category_id country_code : String) (i : ℕ) : Flow :=
  (data.get_feasible_flows category_id country_code).getD i default

/-- optimizer.solve lines 122-172, the MILP handed to the engine: variable
domains (x continuous nonnegative, y binary), demand equality, per-factory
capacity, per-hub throughput, big-M activation and minimum batch. -/
def SatisfiesModelConstraints (data : SupplyChainData) (category_id country_code : String)
    (volume min_batch : ℤ) (engine : EngineResponse) : Prop :=
  (∀ i < feasibleCount data category_id country_code, 0 ≤ engine.x i)
  ∧ (∀ i < feasibleCount data category_id country_code, engine.y i = 0 ∨ engine.y i = 1)
  ∧ ((List.range (feasibleCount data category_id country_code)).map (fun i => engine.x i)).sum
      = (volume : ℚ)
  ∧ (∀ fid ∈ availableFactories (data.get_feasible_flows category_id country_code),
      ((List.range (feasibleCount data category_id country_code)).map (fun i =>
        if (flowAt data category_id country_code i).factory_id = fid then engine.x i else 0)).sum
        ≤ ((dictGetD (data.get_factory_capacity category_id) fid 0 : ℤ) : ℚ))
  ∧ (∀ hid ∈ availableHubs (data.get_feasible_flows category_id country_code),
      ((List.range (feasibleCount data category_id country_code)).map (fun i =>
        if (flowAt data category_id country_code i).hub_id = hid then engine.x i else 0)).sum
        ≤ ((dictGetD data.get_hub_throughput hid 0 : ℤ) : ℚ))
  ∧ (∀ i < feasibleCount data category_id country_code,
      engine.x i ≤ (volume : ℚ) * engine.y i)
  ∧ (∀ i < feasibleCount data category_id country_code,
      (min_batch : ℚ) * engine.y i ≤ engine.x i)

instance (data : SupplyChainData) (category_id country_code : String)
    (volume min_batch : ℤ) (engine : EngineResponse) :
    Decidable (SatisfiesModelConstraints data category_id country_code volume min_batch engine) := by
  unfold SatisfiesModelConstraints
  infer_instance

/-- optimizer.solve line 135: the MILP objective, the score-weighted sum of
the continuous allocations. -/
def objectiveValue (data : SupplyChainData) (category_id country_code : String)
    (cost_weight time_weight regional_weight : ℚ) (x : ℕ → ℚ) : ℚ :=
  ((List.range (feasibleCount data category_id country_code)).map (fun i =>
    x i * effective_cost (data.get_feasible_flows category_id country_code) data country_code
      cost_weight time_weight regional_weight (flowAt data category_id country_code i))).sum

/-- An engine response is an optimal model solution: it satisfies every
constraint and no other constraint-satisfying response has a smaller
objective. -/
def IsOptimalAssignment (data : SupplyChainData) (category_id country_code : String)
    (volume min_batch : ℤ) (cost_weight time_weight regional_weight : ℚ)
    (engine : EngineResponse) : Prop :=
  SatisfiesModelConstraints data category_id country_code volume min_batch engine
  ∧ ∀ other : EngineResponse,
      SatisfiesModelConstraints data category_id country_code volume min_batch other →
      objectiveValue data category_id country_code cost_weight time_weight regional_weight engine.x
        ≤ objectiveValue data category_id country_code cost_weight time_weight regional_weight other.x

/-- Volume-weighted average transit days of a continuous allocation. -/
def volumeWeightedAvgTransitDays (data : SupplyChainData)
    (category_id country_code : String) (volume : ℤ) (x : ℕ → ℚ) : ℚ :=
  ((List.range (feasibleCount data category_id country_code)).map (fun i =>
    x i * ((flowAt data category_id country_code i).transit_days : ℚ))).sum / (volume : ℚ)

/-- A Tier 1 entry: an allocation entry enriched with display names
(ranker.rank_flows lines 115-125). -/
structure Tier1Entry extends AllocationEntry where
  factory_name : String
  factory_city : String
  factory_country : String
  hub_name : String
  hub_city : String
  hub_country : String
deriving DecidableEq

/-- A Tier 2 entry (ranker.rank_flows lines 136-151). -/
structure Tier2Entry where
  rank : ℕ
  factory_id : String
  factory_name : String
  factory_city : String
  factory_country : String
  hub_id : String
  hub_name : String
  hub_city : String
  cost_per_unit : ℚ
  effective_cost_per_unit : ℚ
  transit_days : ℤ
  composite_score : ℚ
deriving DecidableEq, Inhabited

/-- A Tier 3 entry (ranker.rank_flows lines 168-235); optional fields are
None on a blocked factory with no route at all. -/
structure Tier3Entry where
  factory_id : String
  factory_name : String
  factory_city : String
  factory_country : String
  best_hub_id : Option String
  best_hub_name : String
  cost_per_unit : Option ℚ
  transit_days : Option ℤ
  composite_score : Option ℚ
  status : String
deriving DecidableEq, Inhabited

/-- The three-tier dict returned by ranker.rank_flows. -/
structure RankedResult where
  chosen_flows : List Tier1Entry
  other_available : List Tier2Entry
  alternative_factories : List Tier3Entry
deriving DecidableEq

/-- ranker._get_restriction_reason: the reason of the first MADE_IN
restriction matching the factory country against the destination. -/
def _get_restriction_reason (data : SupplyChainData)
    (factory_id country_code : String) : Option String :=
  ((data.geopolitical.filter (fun g =>
      g.destination_country_code == country_code
        && g.restricted_country_code == data.factory_country factory_id
        && g.restriction_type == "MADE_IN")).head?).map (fun g => g.reason)

/-- Comparison by the composite_score column (pandas sort_values). -/
def scoreLe (a b : Flow) : Bool := decide (a.composite_score ≤ b.composite_score)

/-- Comparison by the total_landed_cost column (pandas sort_values). -/
def costLe (a b : Flow) : Bool := decide (a.total_landed_cost ≤ b.total_landed_cost)

/-- ranker.rank_flows line 104: write the composite_score column onto the
feasible flows, scored against the whole feasible set. -/
def scoredForRank (result : SolverResult) (data : SupplyChainData) (country_code : String)
    (cost_weight time_weight regional_weight : ℚ) : List Flow :=
  result.feasible_flows.map (fun f =>
    { f with composite_score := (composite_score result.feasible_flows data country_code
        cost_weight time_weight regional_weight f) })

/-- ranker.rank_flows lines 111-113: the (factory, hub) pairs of Tier 1. -/
def chosenKeys (result : SolverResult) : List (String × String) :=
  result.chosen_flows.map (fun cf => (cf.factory_id, cf.hub_id))

/-- ranker.rank_flows lines 130-132: drop flows whose (factory, hub) pair is
chosen, then sort ascending by composite score. -/
def remainingSorted (flows2 : List Flow) (keys : List (String × String)) : List Flow :=
  insertionSort scoreLe (flows2.filter (fun r => !(keys.contains (r.factory_id, r.hub_id))))

/-- ranker.rank_flows lines 115-125: Tier 1 from the chosen flows. -/
def mkTier1 (data : SupplyChainData) (result : SolverResult) : List Tier1Entry :=
  result.chosen_flows.map (fun cf =>
    { toAllocationEntry := cf
      factory_name := data.factory_name cf.factory_id
      factory_city := data.factory_city cf.factory_id
      factory_country := data.factory_country cf.factory_id
      hub_name := data.hub_name cf.hub_id
      hub_city := data.hub_city cf.hub_id
      hub_country := data.hub_country cf.hub_id })

/-- ranker.rank_flows lines 136-151: Tier 2 entries with ranks 2, 3, 4. -/
def mkTier2 (data : SupplyChainData) (rows : List Flow) : List Tier2Entry :=
  rows.enum.map (fun p =>
    { rank := p.1 + 2
      factory_id := p.2.factory_id
      factory_name := data.factory_name p.2.factory_id
      factory_city := data.factory_city p.2.factory_id
      factory_country := data.factory_country p.2.factory_id
      hub_id := p.2.hub_id
      hub_name := data.hub_name p.2.hub_id
      hub_city := data.hub_city p.2.hub_id
      cost_per_unit := p.2.total_landed_cost
      effective_cost_per_unit := p.2.effective_cost
      transit_days := p.2.transit_days
      composite_score := pyRoundTo p.2.composite_score 4 })

/-- ranker.rank_flows lines 168-181: Tier 3 entries for available factories. -/
def mkTier3Available (data : SupplyChainData) (rows : List Flow) : List Tier3Entry :=
  rows.map (fun row =>
    { factory_id := row.factory_id
      factory_name := data.factory_name row.factory_id
      factory_city := data.factory_city row.factory_id
      factory_country := data.factory_country row.factory_id
      best_hub_id := some row.hub_id
      best_hub_name := data.hub_name row.hub_id
      cost_per_unit := some row.total_landed_cost
      transit_days := some row.transit_days
      composite_score := some (pyRoundTo row.composite_score 4)
      status := "Available" })

/-- ranker.rank_flows lines 201-205: the block reason for a factory. -/
def blockedStatus (data : SupplyChainData) (factory_id country_code : String) : String :=
  match _get_restriction_reason data factory_id country_code with
  | some reason => "Restricted: " ++ reason
  | none => "Exceeds lead time"

/-- ranker.rank_flows lines 197-235: the Tier 3 entry of a factory with no
feasible route, showing its best unfiltered route when one exists. -/
def mkBlockedEntry (data : SupplyChainData)
    (category_id country_code fid : String) : Tier3Entry :=
  match (insertionSort costLe ((data.all_flows.filter (fun r =>
      r.category_id == category_id && r.country_code == country_code)).filter
      (fun r => r.factory_id == fid))).head? with
  | some best =>
    { factory_id := fid
      factory_name := data.factory_name fid
      factory_city := data.factory_city fid
      factory_country := data.factory_country fid
      best_hub_id := some best.hub_id
      best_hub_name := data.hub_name best.hub_id
      cost_per_unit := some best.total_landed_cost
      transit_days := some best.transit_days
      composite_score := none
      status := blockedStatus data fid country_code }
  | none =>
    { factory_id := fid
      factory_name := data.factory_name fid
      factory_city := data.factory_city fid
      factory_country := data.factory_country fid
      best_hub_id := none
      best_hub_name := "N/A"
      cost_per_unit := none
      transit_days := none
      composite_score := none
      status := blockedStatus data fid country_code }

/-- ranker.rank_flows: score the feasible set, then partition into the
three tiers; with a category the factories with zero feasible routes are
appended to Tier 3 in sorted id order. -/
def rank_flows (result : SolverResult) (data : SupplyChainData) (country_code : String)
    (cost_weight time_weight regional_weight : ℚ) (category_id : Option String) :
    RankedResult :=
  if result.feasible_flows.isEmpty then
    { chosen_flows := [], other_available := [], alternative_factories := [] }
  else
    let flows2 := scoredForRank result data country_code
      cost_weight time_weight regional_weight
    let remaining := remainingSorted flows2 (chosenKeys result)
    let tier2rows := remaining.take 3
    let used_factories := result.chosen_flows.map (fun cf => cf.factory_id)
      ++ tier2rows.map (fun r => r.factory_id)
    let tier3_candidates := remaining.filter (fun r => !(used_factories.contains r.factory_id))
    let best_per_factory :=
      dropDuplicatesBy (fun r => r.factory_id) (insertionSort scoreLe tier3_candidates)
    let tier3base := mkTier3Available data best_per_factory
    let tier3 :=
      match category_id with
      | none => tier3base
      | some cat =>
        let all_factory_ids := (data.factories.map (fun f => f.factory_id)).dedup
        let tier3_factory_ids := best_per_factory.map (fun r => r.factory_id)
        let missing := all_factory_ids.filter (fun fid =>
          !(used_factories.contains fid) && !(tier3_factory_ids.contains fid))
        tier3base ++ (insertionSort strLe missing).map
          (fun fid => mkBlockedEntry data cat country_code fid)
    { chosen_flows := mkTier1 data result
      other_available := mkTier2 data tier2rows
      alternative_factories := tier3 }

/-- A knowledge-graph node.  knowledge_graph.py keys nodes by strings with
a type marker glued in front so that entity types cannot collide; the
constructors carry the same information, and stripping the marker is
projection of the payload. -/
inductive GNode where
  | region : String → GNode
  | country : String → GNode
  | factory : String → GNode
  | hub : String → GNode
deriving DecidableEq

/-- The four edge labels of the knowledge graph. -/
inductive GEdgeType where
  | IN_REGION
  | SHIPS_TO
  | DELIVERS_TO
  | RESTRICTS
deriving DecidableEq

/-- A directed labelled edge. -/
structure GEdge where
  src : GNode
  tgt : GNode
  edge_type : GEdgeType
deriving DecidableEq

/-- knowledge_graph._build lines 98-103: the distinct (factory, hub) pairs
of all_flows (groupby keys; attribute aggregates are display data). -/
def ships_to_pairs (data : SupplyChainData) : List (String × String) :=
  (data.all_flows.map (fun r => (r.factory_id, r.hub_id))).dedup

/-- knowledge_graph._build lines 115-120: the distinct (hub, country) pairs
of all_flows. -/
def delivers_to_pairs (data : SupplyChainData) : List (String × String) :=
  (data.all_flows.map (fun r => (r.hub_id, r.country_code))).dedup

/-- knowledge_graph._build: every edge of the DiGraph (a repeated add_edge
on one (src, tgt) pair overwrites, hence the dedup on the grouped pairs). -/
def graph_edges (data : SupplyChainData) : List GEdge :=
  (data.countries.map (fun c =>
    { src := GNode.country c.country_code, tgt := GNode.region c.region_id,
      edge_type := GEdgeType.IN_REGION }))
  ++ (data.factories.map (fun f =>
    { src := GNode.factory f.factory_id, tgt := GNode.region f.region_id,
      edge_type := GEdgeType.IN_REGION }))
  ++ (data.hubs.map (fun h =>
    { src := GNode.hub h.hub_id, tgt := GNode.region h.region_id,
      edge_type := GEdgeType.IN_REGION }))
  ++ ((ships_to_pairs data).map (fun p =>
    { src := GNode.factory p.1, tgt := GNode.hub p.2, edge_type := GEdgeType.SHIPS_TO }))
  ++ ((delivers_to_pairs data).map (fun p =>
    { src := GNode.hub p.1, tgt := GNode.country p.2, edge_type := GEdgeType.DELIVERS_TO }))
  ++ (((data.geopolitical.map (fun g =>
        (g.destination_country_code, g.restricted_country_code))).dedup).map (fun p =>
    { src := GNode.country p.1, tgt := GNode.country p.2, edge_type := GEdgeType.RESTRICTS }))

/-- knowledge_graph._build: every node of the DiGraph: the explicitly added
entity nodes plus every edge endpoint (add_edge creates missing nodes). -/
def graph_nodes (data : SupplyChainData) : List GNode :=
  (data.regions.map (fun r => GNode.region r.region_id))
  ++ (data.countries.map (fun c => GNode.country c.country_code))
  ++ (data.factories.map (fun f => GNode.factory f.factory_id))
  ++ (data.hubs.map (fun h => GNode.hub h.hub_id))
  ++ ((graph_edges data).map (fun e => e.src))
  ++ ((graph_edges data).map (fun e => e.tgt))

/-- target.startswith with the country marker. -/
def GNode.isCountry : GNode → Bool
  | GNode.country _ => true
  | _ => false

/-- Stripping the country marker off a node key. -/
def GNode.code : GNode → String
  | GNode.country c => c
  | _ => ""

/-- knowledge_graph.impact_analysis: the countries served by a hub whose
only DELIVERS_TO in-edge comes from that hub; empty for an unknown hub. -/
def impact_analysis (data : SupplyChainData) (hub_id : String) : List String :=
  if GNode.hub hub_id ∈ graph_nodes data then
    (((((graph_edges data).filter (fun e =>
        e.src == GNode.hub hub_id && e.edge_type == GEdgeType.DELIVERS_TO
          && e.tgt.isCountry)).map (fun e => e.tgt)).dedup).filter (fun cn =>
      (((graph_edges data).filter (fun e =>
          e.tgt == cn && e.edge_type == GEdgeType.DELIVERS_TO)).map (fun e => e.src)).length == 1
        && (((graph_edges data).filter (fun e =>
          e.tgt == cn && e.edge_type == GEdgeType.DELIVERS_TO)).map (fun e => e.src)).head?
            == some (GNode.hub hub_id))).map GNode.code
  else []

/-- The DELIVERS_TO in-degree of a node. -/
def delivers_in_degree (data : SupplyChainData) (cn : GNode) : ℕ :=
  ((graph_edges data).filter (fun e =>
    e.tgt == cn && e.edge_type == GEdgeType.DELIVERS_TO)).length

/-- A synthetic flow row for concrete instances. -/
def mkExFlow (fid hid cc : String) (cost : ℚ) (days : ℤ) : Flow :=
  { category_id := "CAT01", country_code := cc, factory_id := fid, hub_id := hid,
    manufacturing_cost := cost, transport_cost := 0, hub_handling_cost := 0,
    last_mile_cost := 0, tariff_pct := 0, tariff_amount := 0,
    total_landed_cost := cost, transit_days := days,
    is_geopolitically_restricted := false, is_lead_time_feasible := true }

/-- A synthetic factory located outside the destination region. -/
def mkExFactory (fid : String) : Factory :=
  { factory_id := fid, factory_name := fid, city := "", country_code := "XC",
    region_id := "EAS" }

/-- A synthetic hub located outside the destination region. -/
def mkExHub (hid : String) : Hub :=
  { hub_id := hid, hub_name := hid, city := "", country_code := "XH",
    region_id := "EAS", monthly_throughput_capacity := 5000 }

/-- A synthetic capacity row. -/
def mkExCap (fid : String) (cap : ℤ) : CapacityRow :=
  { category_id := "CAT01", factory_id := fid, monthly_capacity_units := cap }

/-- Three equal-cost, equal-time flows from three factories through one hub:
every assignment meeting demand has the same objective value. -/
def dataA : SupplyChainData :=
  { regions := [{ region_id := "NAM", region_name := "North America" },
                { region_id := "EAS", region_name := "East" }]
    countries := [{ country_code := "US", country_name := "United States", region_id := "NAM" }]
    factories := [mkExFactory "F1", mkExFactory "F2", mkExFactory "F3"]
    hubs := [mkExHub "H1"]
    factory_capacity := [mkExCap "F1" 1000, mkExCap "F2" 1000, mkExCap "F3" 1000]
    all_flows := [mkExFlow "F1" "H1" "US" 100 10, mkExFlow "F2" "H1" "US" 100 10,
                  mkExFlow "F3" "H1" "US" 100 10]
    geopolitical := [] }

/-- A constraint-satisfying engine answer for dataA at volume 1501 and
minimum batch 500 whose three fractional values round down to 1500. -/
def engineA : EngineResponse :=
  { status := "Optimal"
    x := fun i => if i = 0 then 5003/10 else if i = 1 then 5003/10
      else if i = 2 then 5004/10 else 0
    y := fun i => if i < 3 then 1 else 0 }

/-- Two factories with routes of distinct scores, and a third catalog
factory with no route at all. -/
def dataB : SupplyChainData :=
  { regions := [{ region_id := "NAM", region_name := "North America" },
                { region_id := "EAS", region_name := "East" }]
    countries := [{ country_code := "US", country_name := "United States", region_id := "NAM" }]
    factories := [mkExFactory "F1", mkExFactory "F2", mkExFactory "F9"]
    hubs := [mkExHub "H1", mkExHub "H2", mkExHub "H3"]
    factory_capacity := [mkExCap "F1" 2000, mkExCap "F2" 2000]
    all_flows := [mkExFlow "F1" "H1" "US" 80 10, mkExFlow "F1" "H2" "US" 90 10,
                  mkExFlow "F2" "H3" "US" 100 10]
    geopolitical := [{ destination_country_code := "US", restricted_country_code := "XC",
                       restriction_type := "MADE_IN", reason := "sanctions" }] }

/-- The engine answer putting the whole volume on the cheapest dataB flow. -/
def engineB : EngineResponse :=
  { status := "Optimal"
    x := fun i => if i = 0 then 1000 else 0
    y := fun i => if i = 0 then 1 else 0 }

/-- An engine answer reporting a non-optimal status. -/
def engineInfeasible : EngineResponse :=
  { status := "Infeasible", x := fun _ => 0, y := fun _ => 0 }

/-- A null engine answer, used where the engine is never consulted. -/
def engineNull : EngineResponse :=
  { status := "Optimal", x := fun _ => 0, y := fun _ => 0 }

/-- One clearly best flow and two tied runner-up flows of equal cost and
time from the same factory over different hubs. -/
def dataC : SupplyChainData :=
  { regions := [{ region_id := "NAM", region_name := "North America" },
                { region_id := "EAS", region_name := "East" }]
    countries := [{ country_code := "US", country_name := "United States", region_id := "NAM" }]
    factories := [mkExFactory "F0", mkExFactory "F1"]
    hubs := [mkExHub "H0", mkExHub "H1", mkExHub "H2"]
    factory_capacity := [mkExCap "F0" 2000, mkExCap "F1" 2000]
    all_flows := [mkExFlow "F0" "H0" "US" 50 10, mkExFlow "F1" "H1" "US" 100 10,
                  mkExFlow "F1" "H2" "US" 100 10]
    geopolitical := [] }

/-- Two countries, one of which is served only by hub H1. -/
def dataD : SupplyChainData :=
  { regions := [{ region_id := "NAM", region_name := "North America" },
                { region_id := "EAS", region_name := "East" }]
    countries := [{ country_code := "U1", country_name := "One", region_id := "NAM" },
                  { country_code := "U2", country_name := "Two", region_id := "NAM" }]
    factories := [mkExFactory "F1"]
    hubs := [mkExHub "H1", mkExHub "H2"]
    factory_capacity := [mkExCap "F1" 2000]
    all_flows := [mkExFlow "F1" "H1" "U1" 100 10, mkExFlow "F1" "H1" "U2" 100 10,
                  mkExFlow "F1" "H2" "U2" 100 10]
    geopolitical := [] }

/-- A single-flow instance: the demand constraint pins down the whole
assignment, so the unique feasible response is optimal for any weights. -/
def dataE : SupplyChainData :=
  { regions := [{ region_id := "NAM", region_name := "North America" },
                { region_id := "EAS", region_name := "East" }]
    countries := [{ country_code := "US", country_name := "United States", region_id := "NAM" }]
    factories := [mkExFactory "F1"]
    hubs := [mkExHub "H1"]
    factory_capacity := [mkExCap "F1" 2000]
    all_flows := [mkExFlow "F1" "H1" "US" 100 10]
    geopolitical := [] }

/-- The engine answer putting the whole volume on the single dataE flow. -/
def engineE : EngineResponse :=
  { status := "Optimal", x := fun _ => 1000, y := fun _ => 1 }

/-- An integral constraint-satisfying engine answer for dataA. -/
def engineAInt : EngineResponse :=
  { status := "Optimal"
    x := fun i => if i = 0 then 501 else if i = 1 then 500 else if i = 2 then 500 else 0
    y := fun i => if i < 3 then 1 else 0 }

/-- The allocation entry solve extracts from dataB with engineB. -/
def entryB : AllocationEntry :=
  { factory_id := "F1", hub_id := "H1", units_allocated := 1000, cost_per_unit := 80,
    effective_cost_per_unit := 3/16, total_cost := 80000, manufacturing_cost := 80,
    transport_cost := 0, hub_handling_cost := 0, last_mile_cost := 0, tariff_pct := 0,
    tariff_amount := 0, transit_days := 10 }

/-- Reference tables with no rows at all. -/
def dataEmpty : SupplyChainData :=
  { regions := [], countries := [], factories := [], hubs := [],
    factory_capacity := [], all_flows := [], geopolitical := [] }

theorem insertSorted_perm {α : Type} (le : α → α → Bool) (a : α) :
    ∀ l : List α, (insertSorted le a l).Perm (a :: l) := by
  intro l
  induction l with
  | nil => simp [insertSorted]
  | cons b bs ih =>
    simp only [insertSorted]
    split
    · exact List.Perm.refl _
    · exact (ih.cons b).trans (List.Perm.swap a b bs)

theorem insertionSort_perm {α : Type} (le : α → α → Bool) :
    ∀ l : List α, (insertionSort le l).Perm l := by
  intro l
  induction l with
  | nil => simp [insertionSort]
  | cons x xs ih =>
    simp only [insertionSort]
    exact (insertSorted_perm le x _).trans (ih.cons x)

theorem mem_insertionSort {α : Type} (le : α → α → Bool) (l : List α) (a : α) :
    a ∈ insertionSort le l ↔ a ∈ l :=
  (insertionSort_perm le l).mem_iff

theorem pairwise_insertSorted {α : Type} (le : α → α → Bool)
    (htot : ∀ u v, le u v = true ∨ le v u = true)
    (htrans : ∀ u v w, le u v = true → le v w = true → le u w = true) (a : α) :
    ∀ l : List α, l.Pairwise (fun u v => le u v = true) →
      (insertSorted le a l).Pairwise (fun u v => le u v = true) := by
  intro l
  induction l with
  | nil => intro _; simp [insertSorted]
  | cons b bs ih =>
    intro hp
    obtain ⟨hb, hbs⟩ := List.pairwise_cons.mp hp
    simp only [insertSorted]
    split
    case isTrue h =>
      refine List.pairwise_cons.mpr ⟨?_, hp⟩
      intro x hx
      rcases List.mem_cons.mp hx with rfl | hx2
      · exact h
      · exact htrans a b x h (hb x hx2)
    case isFalse h =>
      have hba : le b a = true := by
        rcases htot a b with hab | hba
        · exact absurd hab h
        · exact hba
      refine List.pairwise_cons.mpr ⟨?_, ih hbs⟩
      intro x hx
      have hx2 : x ∈ a :: bs := (insertSorted_perm le a bs).mem_iff.mp hx
      rcases List.mem_cons.mp hx2 with rfl | hx3
      · exact hba
      · exact hb x hx3

theorem pairwise_insertionSort {α : Type} (le : α → α → Bool)
    (htot : ∀ u v, le u v = true ∨ le v u = true)
    (htrans : ∀ u v w, le u v = true → le v w = true → le u w = true) :
    ∀ l : List α, (insertionSort le l).Pairwise (fun u v => le u v = true) := by
  intro l
  induction l with
  | nil => simp [insertionSort]
  | cons x xs ih =>
    simp only [insertionSort]
    exact pairwise_insertSorted le htot htrans x _ ih

theorem mem_of_mem_dropDuplicatesBy {α : Type} (key : α → String) :
    ∀ (l : List α) (x : α), x ∈ dropDuplicatesBy key l → x ∈ l := by
  intro l
  induction l with
  | nil => simp [dropDuplicatesBy]
  | cons a as ih =>
    intro x hx
    simp only [dropDuplicatesBy, List.mem_cons] at hx
    rcases hx with rfl | hx2
    · exact List.mem_cons_self _ _
    · exact List.mem_cons_of_mem _ (ih x (List.mem_of_mem_filter hx2))

theorem key_mem_dropDuplicatesBy {α : Type} (key : α → String) :
    ∀ (l : List α) (k : String), (∃ x ∈ l, key x = k) →
      ∃ x ∈ dropDuplicatesBy key l, key x = k := by
  intro l
  induction l with
  | nil =>
    intro k h
    simp at h
  | cons a as ih =>
    intro k h
    obtain ⟨x, hx, hk⟩ := h
    rcases List.mem_cons.mp hx with rfl | hx2
    · exact ⟨x, by simp [dropDuplicatesBy], hk⟩
    · by_cases hka : k = key a
      · exact ⟨a, by simp [dropDuplicatesBy], hka.symm⟩
      · obtain ⟨z, hz, hzk⟩ := ih k ⟨x, hx2, hk⟩
        refine ⟨z, ?_, hzk⟩
        simp only [dropDuplicatesBy, List.mem_cons]
        right
        refine List.mem_filter.mpr ⟨hz, ?_⟩
        simp only [bne_iff_ne, ne_eq, decide_eq_true_eq]
        rw [hzk]
        exact fun hc => hka hc

theorem pyRound_intCast (k : ℤ) : pyRound (k : ℚ) = k := by
  unfold pyRound
  rw [Int.floor_intCast]
  norm_num

theorem floor_le_pyRound (q : ℚ) : ⌊q⌋ ≤ pyRound q := by
  unfold pyRound
  split_ifs <;> omega

theorem pyRound_le_floor_add_one (q : ℚ) : pyRound q ≤ ⌊q⌋ + 1 := by
  unfold pyRound
  split_ifs <;> omega

theorem int_le_pyRound (k : ℤ) (q : ℚ) (h : (k : ℚ) ≤ q) : k ≤ pyRound q :=
  le_trans (Int.le_floor.mpr h) (floor_le_pyRound q)

theorem one_le_pyRound (q : ℚ) (h : 1/2 < q) : 1 ≤ pyRound q := by
  have h0 : (0 : ℤ) ≤ ⌊q⌋ := Int.le_floor.mpr (by push_cast; linarith)
  by_cases h1 : 1 ≤ ⌊q⌋
  · exact le_trans h1 (floor_le_pyRound q)
  · have hf : ⌊q⌋ = 0 := by omega
    have hr : ¬ (q - ((⌊q⌋ : ℤ) : ℚ) < 1/2) := by
      rw [hf]
      push_cast
      linarith
    have hr2 : 1/2 < q - ((⌊q⌋ : ℤ) : ℚ) := by
      rw [hf]
      push_cast
      linarith
    unfold pyRound
    rw [if_neg hr, if_pos hr2, hf]
    omega

theorem pyRound_mono {p q : ℚ} (h : p ≤ q) : pyRound p ≤ pyRound q := by
  have hf : ⌊p⌋ ≤ ⌊q⌋ := Int.floor_mono h
  by_cases heq : ⌊p⌋ = ⌊q⌋
  · have hr : p - ((⌊p⌋ : ℤ) : ℚ) ≤ q - ((⌊q⌋ : ℤ) : ℚ) := by
      rw [heq]
      linarith
    unfold pyRound
    rw [heq]
    split_ifs <;> first | omega | linarith
  · have hlt : ⌊p⌋ + 1 ≤ ⌊q⌋ := by omega
    exact le_trans (pyRound_le_floor_add_one p) (le_trans hlt (floor_le_pyRound q))

theorem pyRoundTo_mono {p q : ℚ} (n : ℕ) (h : p ≤ q) : pyRoundTo p n ≤ pyRoundTo q n := by
  unfold pyRoundTo
  have hpow : (0 : ℚ) < (10 : ℚ) ^ n := by positivity
  have hm : p * (10 : ℚ) ^ n ≤ q * (10 : ℚ) ^ n :=
    mul_le_mul_of_nonneg_right h (le_of_lt hpow)
  have h2 : ((pyRound (p * (10 : ℚ) ^ n) : ℤ) : ℚ) ≤ ((pyRound (q * (10 : ℚ) ^ n) : ℤ) : ℚ) := by
    exact_mod_cast pyRound_mono hm
  rw [div_eq_mul_inv, div_eq_mul_inv]
  exact mul_le_mul_of_nonneg_right h2 (by positivity)

theorem foldl_min_le_init : ∀ (l : List ℚ) (a : ℚ), l.foldl min a ≤ a := by
  intro l
  induction l with
  | nil => intro a; exact le_refl a
  | cons b bs ih => intro a; exact le_trans (ih (min a b)) (min_le_left a b)

theorem foldl_min_le_mem : ∀ (l : List ℚ) (a x : ℚ), x ∈ l → l.foldl min a ≤ x := by
  intro l
  induction l with
  | nil => intro a x hx; cases hx
  | cons b bs ih =>
    intro a x hx
    rcases List.mem_cons.mp hx with rfl | hx2
    · exact le_trans (foldl_min_le_init bs (min a x)) (min_le_right a x)
    · exact ih (min a b) x hx2

theorem seriesMin_le {l : List ℚ} {x : ℚ} (hx : x ∈ l) : seriesMin l ≤ x := by
  cases l with
  | nil => cases hx
  | cons a as =>
    rcases List.mem_cons.mp hx with rfl | h2
    · exact foldl_min_le_init as x
    · exact foldl_min_le_mem as a x h2

theorem init_le_foldl_max : ∀ (l : List ℚ) (a : ℚ), a ≤ l.foldl max a := by
  intro l
  induction l with
  | nil => intro a; exact le_refl a
  | cons b bs ih => intro a; exact le_trans (le_max_left a b) (ih (max a b))

theorem mem_le_foldl_max : ∀ (l : List ℚ) (a x : ℚ), x ∈ l → x ≤ l.foldl max a := by
  intro l
  induction l with
  | nil => intro a x hx; cases hx
  | cons b bs ih =>
    intro a x hx
    rcases List.mem_cons.mp hx with rfl | hx2
    · exact le_trans (le_max_right a x) (init_le_foldl_max bs (max a x))
    · exact ih (max a b) x hx2

theorem le_seriesMax {l : List ℚ} {x : ℚ} (hx : x ∈ l) : x ≤ seriesMax l := by
  cases l with
  | nil => cases hx
  | cons a as =>
    rcases List.mem_cons.mp hx with rfl | h2
    · exact init_le_foldl_max as x
    · exact mem_le_foldl_max as a x h2

theorem sum_map_filterMap {β M : Type} [AddCommMonoid M] (f : ℕ → Option β) (g : β → M) :
    ∀ l : List ℕ,
      ((l.filterMap f).map g).sum = (l.map (fun i => ((f i).map g).getD 0)).sum := by
  intro l
  induction l with
  | nil => rfl
  | cons a as ih =>
    cases hf : f a with
    | none => simp [List.filterMap_cons, hf, ih]
    | some b => simp [List.filterMap_cons, hf, ih]

theorem range_map_sum_eq {M : Type} [AddCommMonoid M] (n : ℕ) (f : ℕ → M) :
    ((List.range n).map f).sum = ∑ i ∈ Finset.range n, f i := rfl

theorem insufficient_status_ne_optimal (a b : ℤ) : insufficient_status a b ≠ "Optimal" := by
  intro h
  have hl := congrArg String.length h
  rw [insufficient_status] at hl
  simp only [String.length_append] at hl
  have h1 : ("Infeasible: total factory capacity (" : String).length = 36 := rfl
  have h2 : (") < volume (" : String).length = 12 := rfl
  have h3 : (")" : String).length = 1 := rfl
  have h4 : ("Optimal" : String).length = 7 := rfl
  rw [h1, h2, h3, h4] at hl
  omega

theorem insufficient_status_ne_noFeasible (a b : ℤ) :
    insufficient_status a b ≠ noFeasibleStatus := by
  intro h
  have hl := congrArg String.length h
  rw [insufficient_status, noFeasibleStatus] at hl
  simp only [String.length_append] at hl
  have h1 : ("Infeasible: total factory capacity (" : String).length = 36 := rfl
  have h2 : (") < volume (" : String).length = 12 := rfl
  have h3 : (")" : String).length = 1 := rfl
  have h4 : ("No feasible flows found" : String).length = 23 := rfl
  rw [h1, h2, h3, h4] at hl
  omega

/-- C4: the per-flow composite score computed inside the optimizer
(effective_cost: min-max normalized cost and transit days, three-valued
regional penalty, weighted and divided by the weight sum) equals the
per-flow composite score computed by the ranker, for every feasible flow
set, destination, weight triple and flow. -/
theorem C4_score_refinement :
    ∀ (flows : List Flow) (data : SupplyChainData) (country_code : String)
      (cost_weight time_weight regional_weight : ℚ) (f : Flow),
      effective_cost flows data country_code cost_weight time_weight regional_weight f
        = composite_score flows data country_code cost_weight time_weight regional_weight f := by
  intro flows data country_code cost_weight time_weight regional_weight f
  unfold effective_cost composite_score cost_norm time_norm regional_penalty
  rfl

/-- C5: with an empty feasible set solve returns the distinct no-feasible
status, and with aggregate factory capacity below the volume it returns
the distinct insufficient-capacity status; in both cases the result does
not depend on the engine oracle, and the two statuses are distinct from
each other and from the Optimal status. -/
theorem C5_prechecks (data : SupplyChainData) (category_id country_code : String)
    (volume : ℤ) (cost_weight time_weight regional_weight : ℚ) (min_batch : ℤ)
    (e1 e2 : EngineResponse) :
    (data.get_feasible_flows category_id country_code = [] →
      (solve data category_id country_code volume cost_weight time_weight regional_weight
          min_batch e1).status = noFeasibleStatus
      ∧ solve data category_id country_code volume cost_weight time_weight regional_weight
          min_batch e1
        = solve data category_id country_code volume cost_weight time_weight regional_weight
          min_batch e2)
    ∧ (data.get_feasible_flows category_id country_code ≠ [] →
        totalFactoryCapacity data category_id
          (data.get_feasible_flows category_id country_code) < volume →
      (solve data category_id country_code volume cost_weight time_weight regional_weight
          min_batch e1).status
        = insufficient_status (totalFactoryCapacity data category_id
            (data.get_feasible_flows category_id country_code)) volume
      ∧ solve data category_id country_code volume cost_weight time_weight regional_weight
          min_batch e1
        = solve data category_id country_code volume cost_weight time_weight regional_weight
          min_batch e2)
    ∧ noFeasibleStatus ≠ "Optimal"
    ∧ insufficient_status (totalFactoryCapacity data category_id
        (data.get_feasible_flows category_id country_code)) volume ≠ "Optimal"
    ∧ insufficient_status (totalFactoryCapacity data category_id
        (data.get_feasible_flows category_id country_code)) volume ≠ noFeasibleStatus := by
  refine ⟨?_, ?_, by decide, insufficient_status_ne_optimal _ _,
    insufficient_status_ne_noFeasible _ _⟩
  · intro h
    constructor <;> simp [solve, h]
  · intro h hcap
    constructor <;> simp [solve, List.isEmpty_iff, h, hcap]

/-- C5 witness: on empty reference data solve reports the no-feasible
status, and on a three-flow instance with total capacity 4000 and volume
99999 it reports the insufficient-capacity status. -/
theorem C5_prechecks_witness :
    (solve dataEmpty "CAT01" "US" 100 8 5 3 500 engineNull).status = noFeasibleStatus
    ∧ (solve dataB "CAT01" "US" 99999 8 5 3 500 engineB).status
        = insufficient_status (totalFactoryCapacity dataB "CAT01"
            (dataB.get_feasible_flows "CAT01" "US")) 99999 :=
  ⟨((C5_prechecks dataEmpty "CAT01" "US" 100 8 5 3 500 engineNull engineNull).1
      (by with_unfolding_all decide)).1,
   ((C5_prechecks dataB "CAT01" "US" 99999 8 5 3 500 engineB engineB).2.1
      (by with_unfolding_all decide) (by with_unfolding_all decide)).1⟩

/-- C6: whenever solve returns a status other than Optimal, the result
carries no allocation entries, total cost 0 and total units 0. -/
theorem C6_non_optimal_zero (data : SupplyChainData) (category_id country_code : String)
    (volume : ℤ) (cost_weight time_weight regional_weight : ℚ) (min_batch : ℤ)
    (e : EngineResponse) :
    (solve data category_id country_code volume cost_weight time_weight regional_weight
        min_batch e).status ≠ "Optimal" →
    (solve data category_id country_code volume cost_weight time_weight regional_weight
        min_batch e).chosen_flows = []
    ∧ (solve data category_id country_code volume cost_weight time_weight regional_weight
        min_batch e).total_cost = 0
    ∧ (solve data category_id country_code volume cost_weight time_weight regional_weight
        min_batch e).total_units = 0 := by
  intro h
  simp only [solve] at h ⊢
  split_ifs at h ⊢ with h1 h2 h3
  · exact ⟨rfl, rfl, rfl⟩
  · exact ⟨rfl, rfl, rfl⟩
  · exact ⟨rfl, rfl, rfl⟩
  · exact absurd rfl h

/-- C6 witness: a request over empty reference data has a non-Optimal
status and indeed carries the zero result. -/
theorem C6_non_optimal_zero_witness :
    (solve dataEmpty "CAT01" "US" 100 8 5 3 500 engineNull).chosen_flows = []
    ∧ (solve dataEmpty "CAT01" "US" 100 8 5 3 500 engineNull).total_cost = 0
    ∧ (solve dataEmpty "CAT01" "US" 100 8 5 3 500 engineNull).total_units = 0 :=
  C6_non_optimal_zero dataEmpty "CAT01" "US" 100 8 5 3 500 engineNull
    (by with_unfolding_all decide)

/-- C3 counterexample: the engine invocation carries no time limit at all
(the CBC command is built with msg=0 only, timeLimit left at None), and no
possible engine status reads solver timeout, so solve cannot return a
distinct timeout status. -/
theorem C3_counterexample :
    pulp_cbc_cmd.timeLimit = none ∧ "solver timeout" ∉ lpStatusStrings :=
  ⟨rfl, by decide⟩

/-- C3 amended: the engine is invoked with fixed options msg 0 and no time
limit, and on any request passing the pre-checks solve surfaces the engine
status verbatim (there is no separate timeout status). -/
theorem C3_no_time_limit_verbatim (data : SupplyChainData)
    (category_id country_code : String) (volume : ℤ)
    (cost_weight time_weight regional_weight : ℚ) (min_batch : ℤ) (e : EngineResponse) :
    pulp_cbc_cmd = { msg := 0, timeLimit := none }
    ∧ (data.get_feasible_flows category_id country_code ≠ [] →
        ¬ totalFactoryCapacity data category_id
            (data.get_feasible_flows category_id country_code) < volume →
        (solve data category_id country_code volume cost_weight time_weight regional_weight
          min_batch e).status = e.status) := by
  refine ⟨rfl, ?_⟩
  intro h1 h2
  simp only [solve, List.isEmpty_iff]
  rw [if_neg h1, if_neg h2]
  by_cases h3 : e.status = "Optimal"
  · rw [if_neg (by simpa using h3), h3]
  · rw [if_pos (by simpa using h3)]

/-- C3 witness: on a concrete instance passing the pre-checks, an engine
answer with status Infeasible is surfaced verbatim. -/
theorem C3_witness :
    pulp_cbc_cmd = { msg := 0, timeLimit := none }
    ∧ (solve dataB "CAT01" "US" 1000 8 5 3 500 engineInfeasible).status = "Infeasible" := by
  obtain ⟨h1, h2⟩ := C3_no_time_limit_verbatim dataB "CAT01" "US" 1000 8 5 3 500 engineInfeasible
  exact ⟨h1, (h2 (by with_unfolding_all decide) (by with_unfolding_all decide)).trans rfl⟩

/-- C9: for a hub present in the graph, impact_analysis returns exactly the
countries with a DELIVERS_TO edge from that hub whose DELIVERS_TO in-degree
is exactly one (hence that hub is the sole deliverer); for a hub not in the
graph it returns the empty list. -/
theorem C9_impact_analysis (data : SupplyChainData) (hub_id : String) :
    (GNode.hub hub_id ∈ graph_nodes data →
      ∀ cc : String, cc ∈ impact_analysis data hub_id ↔
        ((⟨GNode.hub hub_id, GNode.country cc, GEdgeType.DELIVERS_TO⟩ : GEdge)
            ∈ graph_edges data
          ∧ delivers_in_degree data (GNode.country cc) = 1))
    ∧ (GNode.hub hub_id ∉ graph_nodes data → impact_analysis data hub_id = []) := by
  constructor
  · intro hmem cc
    unfold impact_analysis
    rw [if_pos hmem]
    constructor
    · intro hcc
      obtain ⟨cn, hcn, hcode⟩ := List.mem_map.mp hcc
      obtain ⟨hserved, hcond⟩ := List.mem_filter.mp hcn
      obtain ⟨e, he, hetgt⟩ := List.mem_map.mp (List.mem_dedup.mp hserved)
      obtain ⟨heedges, hp⟩ := List.mem_filter.mp he
      simp only [Bool.and_eq_true, beq_iff_eq] at hp
      obtain ⟨⟨hsrc, htype⟩, hcountry⟩ := hp
      rw [hetgt] at hcountry
      cases cn with
      | country c =>
        have hc : c = cc := hcode
        subst hc
        constructor
        · have he3 : e = (⟨GNode.hub hub_id, GNode.country c, GEdgeType.DELIVERS_TO⟩ : GEdge) := by
            cases e
            simp only at hsrc htype hetgt
            simp [hsrc, htype, hetgt]
          rw [← he3]
          exact heedges
        · simp only [Bool.and_eq_true, beq_iff_eq] at hcond
          have hlen := hcond.1
          rw [List.length_map] at hlen
          exact hlen
      | region r => exact absurd hcountry (by simp [GNode.isCountry])
      | factory f => exact absurd hcountry (by simp [GNode.isCountry])
      | hub h => exact absurd hcountry (by simp [GNode.isCountry])
    · rintro ⟨hedge, hdeg⟩
      apply List.mem_map.mpr
      refine ⟨GNode.country cc, ?_, rfl⟩
      apply List.mem_filter.mpr
      constructor
      · apply List.mem_dedup.mpr
        apply List.mem_map.mpr
        refine ⟨⟨GNode.hub hub_id, GNode.country cc, GEdgeType.DELIVERS_TO⟩, ?_, rfl⟩
        apply List.mem_filter.mpr
        exact ⟨hedge, by simp [GNode.isCountry]⟩
      · have hlen : ((graph_edges data).filter (fun e =>
            e.tgt == GNode.country cc && e.edge_type == GEdgeType.DELIVERS_TO)).length = 1 := hdeg
        obtain ⟨a, ha⟩ := List.length_eq_one.mp hlen
        have hmem0 : (⟨GNode.hub hub_id, GNode.country cc, GEdgeType.DELIVERS_TO⟩ : GEdge)
            ∈ (graph_edges data).filter (fun e =>
              e.tgt == GNode.country cc && e.edge_type == GEdgeType.DELIVERS_TO) :=
          List.mem_filter.mpr ⟨hedge, by simp⟩
        rw [ha] at hmem0
        have ha2 : a = (⟨GNode.hub hub_id, GNode.country cc, GEdgeType.DELIVERS_TO⟩ : GEdge) := by
          have h1a := List.mem_singleton.mp hmem0
          exact h1a.symm
        simp [ha, ha2]
  · intro hnot
    unfold impact_analysis
    rw [if_neg hnot]

/-- C9 witness: in dataD country U1 is served only by hub H1, and the
unknown hub HZ yields the empty list. -/
theorem C9_impact_analysis_witness :
    "U1" ∈ impact_analysis dataD "H1" ∧ impact_analysis dataD "HZ" = [] :=
  ⟨((C9_impact_analysis dataD "H1").1 (by with_unfolding_all decide) "U1").mpr
      (by with_unfolding_all decide),
   (C9_impact_analysis dataD "HZ").2 (by with_unfolding_all decide)⟩

/-- C7: when the engine answer satisfies the MILP model constraints, every
emitted allocation entry has nonzero units (at least one unit, since an
entry is emitted only when its solver value exceeds the 0.5 noise
threshold) and at least min_batch units. -/
theorem C7_min_batch (data : SupplyChainData) (category_id country_code : String)
    (volume : ℤ) (cost_weight time_weight regional_weight : ℚ) (min_batch : ℤ)
    (e : EngineResponse)
    (hc : SatisfiesModelConstraints data category_id country_code volume min_batch e) :
    ∀ a ∈ (solve data category_id country_code volume cost_weight time_weight regional_weight
        min_batch e).chosen_flows,
      a.units_allocated ≠ 0 ∧ 1 ≤ a.units_allocated ∧ min_batch ≤ a.units_allocated := by
  intro a ha
  simp only [solve] at ha
  split_ifs at ha with h1 h2 h3
  · simp at ha
  · simp at ha
  · simp at ha
  · rw [mem_insertionSort] at ha
    unfold extractChosen at ha
    obtain ⟨i, hi, hsome⟩ := List.mem_filterMap.mp ha
    have hilt := List.mem_range.mp hi
    by_cases hx : 1/2 < e.x i
    · rw [if_pos hx] at hsome
      have ha2 : a = mkAllocationEntry
          ((scoreFlows data country_code cost_weight time_weight regional_weight
            (data.get_feasible_flows category_id country_code)).getD i default)
          (pyRound (e.x i)) := (Option.some.inj hsome).symm
      have hunits : a.units_allocated = pyRound (e.x i) := by rw [ha2]; rfl
      have hn : i < feasibleCount data category_id country_code := by
        simpa [scoreFlows, feasibleCount] using hilt
      obtain ⟨hnn, hybin, hmeet, hfc, hhc, hact, hmb⟩ := hc
      rcases hybin i hn with hy0 | hy1
      · exfalso
        have := hact i hn
        rw [hy0] at this
        simp at this
        linarith
      · have hxmb : (min_batch : ℚ) ≤ e.x i := by
          have := hmb i hn
          rw [hy1] at this
          simpa using this
        have h1le : 1 ≤ pyRound (e.x i) := one_le_pyRound _ hx
        have hmble : min_batch ≤ pyRound (e.x i) := int_le_pyRound _ _ hxmb
        rw [hunits]
        exact ⟨by omega, h1le, hmble⟩
    · rw [if_neg hx] at hsome
      cases hsome

/-- C7 witness: on the dataB instance with the constraint-satisfying
engineB answer, the single emitted entry has 1000 units, nonzero and at
least the minimum batch of 500. -/
theorem C7_min_batch_witness :
    entryB.units_allocated ≠ 0 ∧ (1 : ℤ) ≤ entryB.units_allocated
    ∧ (500 : ℤ) ≤ entryB.units_allocated :=
  C7_min_batch dataB "CAT01" "US" 1000 8 5 3 500 engineB (by with_unfolding_all decide)
    entryB (by
      have h : (solve dataB "CAT01" "US" 1000 8 5 3 500 engineB).chosen_flows = [entryB] := by
        with_unfolding_all rfl
      rw [h]
      exact List.mem_singleton.mpr rfl)

/-- C1 counterexample: on dataA every score is equal, so the fractional
engineA answer (500.3, 500.3, 500.4) is a genuinely optimal solution of
the model summing exactly to the requested 1501 units; solve reports
Optimal, yet the rounded units total 1500, not 1501. -/
theorem C1_counterexample :
    IsOptimalAssignment dataA "CAT01" "US" 1501 500 8 5 3 engineA
    ∧ (solve dataA "CAT01" "US" 1501 8 5 3 500 engineA).status = "Optimal"
    ∧ (solve dataA "CAT01" "US" 1501 8 5 3 500 engineA).total_units ≠ 1501 := by
  refine ⟨⟨by with_unfolding_all decide, ?_⟩, by with_unfolding_all rfl,
    by with_unfolding_all decide⟩
  intro other hother
  obtain ⟨hnn, hyb, hmeet, hfc, hhc, hact, hmb⟩ := hother
  have h3 : feasibleCount dataA "CAT01" "US" = 3 := by with_unfolding_all rfl
  have hs0 : effective_cost (dataA.get_feasible_flows "CAT01" "US") dataA "US" 8 5 3
      (flowAt dataA "CAT01" "US" 0) = 3/16 := by with_unfolding_all decide
  have hs1 : effective_cost (dataA.get_feasible_flows "CAT01" "US") dataA "US" 8 5 3
      (flowAt dataA "CAT01" "US" 1) = 3/16 := by with_unfolding_all decide
  have hs2 : effective_cost (dataA.get_feasible_flows "CAT01" "US") dataA "US" 8 5 3
      (flowAt dataA "CAT01" "US" 2) = 3/16 := by with_unfolding_all decide
  rw [h3] at hmeet
  simp only [List.range_succ, List.range_zero, List.nil_append, List.cons_append,
    List.map_cons, List.map_nil, List.sum_cons, List.sum_nil] at hmeet
  unfold objectiveValue
  rw [h3]
  simp only [List.range_succ, List.range_zero, List.nil_append, List.cons_append,
    List.map_cons, List.map_nil, List.sum_cons, List.sum_nil, hs0, hs1, hs2]
  have hx0 : engineA.x 0 = 5003/10 := by with_unfolding_all rfl
  have hx1 : engineA.x 1 = 5003/10 := by with_unfolding_all rfl
  have hx2 : engineA.x 2 = 5004/10 := by with_unfolding_all rfl
  rw [hx0, hx1, hx2]
  have hv : ((1501 : ℤ) : ℚ) = 1501 := by norm_num
  rw [hv] at hmeet
  linarith

/-- C1 amended: the continuous engine values sum exactly to the volume; when
every value is additionally an integer (and nonnegative, as the model
requires), the rounded total equals the volume.  The counterexample shows
the equality fails for fractional optimal values, the drift the code does
not reconcile. -/
theorem C1_rounding (data : SupplyChainData) (category_id country_code : String)
    (volume : ℤ) (cost_weight time_weight regional_weight : ℚ) (min_batch : ℤ)
    (e : EngineResponse)
    (hstatus : (solve data category_id country_code volume cost_weight time_weight
        regional_weight min_batch e).status = "Optimal")
    (hmeet : ((List.range (feasibleCount data category_id country_code)).map
        (fun i => e.x i)).sum = (volume : ℚ))
    (hnn : ∀ i < feasibleCount data category_id country_code, 0 ≤ e.x i)
    (hint : ∀ i < feasibleCount data category_id country_code, (e.x i).den = 1) :
    (solve data category_id country_code volume cost_weight time_weight regional_weight
        min_batch e).total_units = volume := by
  simp only [solve] at hstatus ⊢
  split_ifs at hstatus ⊢ with h1 h2 h3
  · exact absurd hstatus (by decide)
  · exact absurd hstatus (insufficient_status_ne_optimal _ _)
  · exact absurd hstatus h3
  · have hlen : (scoreFlows data country_code cost_weight time_weight regional_weight
        (data.get_feasible_flows category_id country_code)).length
        = feasibleCount data category_id country_code := by
      simp [scoreFlows, feasibleCount]
    show ((extractChosen _ e).map (fun c => c.units_allocated)).sum = volume
    unfold extractChosen
    rw [sum_map_filterMap, hlen]
    have hfun : ∀ i : ℕ, (((if 1/2 < e.x i then
          some (mkAllocationEntry ((scoreFlows data country_code cost_weight time_weight
            regional_weight (data.get_feasible_flows category_id country_code)).getD i
              default) (pyRound (e.x i)))
        else none).map (fun c => c.units_allocated)).getD 0)
        = (if 1/2 < e.x i then pyRound (e.x i) else 0) := by
      intro i
      by_cases hx : 1/2 < e.x i
      · simp only [if_pos hx]
        rfl
      · simp only [if_neg hx]
        rfl
    simp only [hfun]
    have key : ∀ i, i < feasibleCount data category_id country_code →
        (if 1/2 < e.x i then ((pyRound (e.x i) : ℤ) : ℚ) else 0) = e.x i := by
      intro i hi
      have hq : (((e.x i).num : ℤ) : ℚ) = e.x i := (Rat.den_eq_one_iff _).mp (hint i hi)
      by_cases hx : 1/2 < e.x i
      · rw [if_pos hx, ← hq, pyRound_intCast]
      · rw [if_neg hx]
        push_neg at hx
        have h0 : (0 : ℚ) ≤ ((e.x i).num : ℚ) := by rw [hq]; exact hnn i hi
        have h1q : ((e.x i).num : ℚ) < 1 := by rw [hq]; linarith
        have h0z : (0 : ℤ) ≤ (e.x i).num := by exact_mod_cast h0
        have h1z : (e.x i).num < 1 := by exact_mod_cast h1q
        have hz : (e.x i).num = 0 := by omega
        rw [← hq, hz]
        norm_num
    have hcast : ((((List.range (feasibleCount data category_id country_code)).map
        (fun i => if 1/2 < e.x i then pyRound (e.x i) else 0)).sum : ℤ) : ℚ)
        = ((volume : ℤ) : ℚ) := by
      rw [← hmeet, range_map_sum_eq, range_map_sum_eq]
      push_cast
      exact Finset.sum_congr rfl (fun i hi => key i (Finset.mem_range.mp hi))
    exact_mod_cast hcast

/-- C1 witness for the amended statement: the integral engine answer
(501, 500, 500) on dataA yields total units exactly 1501. -/
theorem C1_rounding_witness :
    (solve dataA "CAT01" "US" 1501 8 5 3 500 engineAInt).total_units = 1501 :=
  C1_rounding dataA "CAT01" "US" 1501 8 5 3 500 engineAInt (by with_unfolding_all rfl)
    (by with_unfolding_all rfl) (by with_unfolding_all decide) (by with_unfolding_all decide)

theorem scoreLe_total : ∀ u v : Flow, scoreLe u v = true ∨ scoreLe v u = true := by
  intro u v
  unfold scoreLe
  rcases le_total u.composite_score v.composite_score with h | h
  · exact Or.inl (decide_eq_true h)
  · exact Or.inr (decide_eq_true h)

theorem scoreLe_trans :
    ∀ u v w : Flow, scoreLe u v = true → scoreLe v w = true → scoreLe u w = true := by
  intro u v w h1 h2
  unfold scoreLe at *
  exact decide_eq_true (le_trans (of_decide_eq_true h1) (of_decide_eq_true h2))

theorem snd_mem_of_mem_enum {α : Type} {l : List α} {p : ℕ × α} (hp : p ∈ l.enum) :
    p.2 ∈ l := by
  have h2 : p.2 ∈ l.enum.map Prod.snd := List.mem_map.mpr ⟨p, hp, rfl⟩
  rwa [List.enum_map_snd] at h2

theorem mkTier1_ids (data : SupplyChainData) (result : SolverResult) :
    (mkTier1 data result).map (fun t => t.factory_id)
      = result.chosen_flows.map (fun c => c.factory_id) := by
  simp [mkTier1, List.map_map]

theorem mkTier2_ids (data : SupplyChainData) (rows : List Flow) :
    (mkTier2 data rows).map (fun t => t.factory_id) = rows.map (fun r => r.factory_id) := by
  simp only [mkTier2, List.map_map]
  have h : ((fun t : Tier2Entry => t.factory_id) ∘ fun p : ℕ × Flow =>
      ({ rank := p.1 + 2, factory_id := p.2.factory_id,
         factory_name := data.factory_name p.2.factory_id,
         factory_city := data.factory_city p.2.factory_id,
         factory_country := data.factory_country p.2.factory_id,
         hub_id := p.2.hub_id, hub_name := data.hub_name p.2.hub_id,
         hub_city := data.hub_city p.2.hub_id, cost_per_unit := p.2.total_landed_cost,
         effective_cost_per_unit := p.2.effective_cost, transit_days := p.2.transit_days,
         composite_score := pyRoundTo p.2.composite_score 4 } : Tier2Entry))
      = (fun r : Flow => r.factory_id) ∘ Prod.snd := rfl
  rw [h, ← List.map_map, List.enum_map_snd]

theorem mkTier2_length (data : SupplyChainData) (rows : List Flow) :
    (mkTier2 data rows).length = rows.length := by
  simp [mkTier2]

theorem mkTier3_ids (data : SupplyChainData) (rows : List Flow) :
    (mkTier3Available data rows).map (fun t => t.factory_id)
      = rows.map (fun r => r.factory_id) := by
  simp [mkTier3Available, List.map_map]

theorem mkBlockedEntry_factory_id (data : SupplyChainData)
    (category_id country_code fid : String) :
    (mkBlockedEntry data category_id country_code fid).factory_id = fid := by
  unfold mkBlockedEntry
  split <;> rfl

theorem mem_mkTier2_pair (data : SupplyChainData) (rows : List Flow) (t : Tier2Entry)
    (ht : t ∈ mkTier2 data rows) :
    ∃ r ∈ rows, t.factory_id = r.factory_id ∧ t.hub_id = r.hub_id := by
  obtain ⟨p, hp, hpe⟩ := List.mem_map.mp ht
  exact ⟨p.2, snd_mem_of_mem_enum hp, by rw [← hpe], by rw [← hpe]⟩

theorem mkTier2_scores (data : SupplyChainData) (rows : List Flow) :
    (mkTier2 data rows).map (fun t => t.composite_score)
      = rows.map (fun r => pyRoundTo r.composite_score 4) := by
  simp only [mkTier2, List.map_map]
  have h : ((fun t : Tier2Entry => t.composite_score) ∘ fun p : ℕ × Flow =>
      ({ rank := p.1 + 2, factory_id := p.2.factory_id,
         factory_name := data.factory_name p.2.factory_id,
         factory_city := data.factory_city p.2.factory_id,
         factory_country := data.factory_country p.2.factory_id,
         hub_id := p.2.hub_id, hub_name := data.hub_name p.2.hub_id,
         hub_city := data.hub_city p.2.hub_id, cost_per_unit := p.2.total_landed_cost,
         effective_cost_per_unit := p.2.effective_cost, transit_days := p.2.transit_days,
         composite_score := pyRoundTo p.2.composite_score 4 } : Tier2Entry))
      = (fun r : Flow => pyRoundTo r.composite_score 4) ∘ Prod.snd := rfl
  rw [h, ← List.map_map, List.enum_map_snd]

theorem mkTier2_ranks (data : SupplyChainData) (rows : List Flow) :
    (mkTier2 data rows).map (fun t => t.rank)
      = (List.range rows.length).map (fun i => i + 2) := by
  simp only [mkTier2, List.map_map]
  have h : ((fun t : Tier2Entry => t.rank) ∘ fun p : ℕ × Flow =>
      ({ rank := p.1 + 2, factory_id := p.2.factory_id,
         factory_name := data.factory_name p.2.factory_id,
         factory_city := data.factory_city p.2.factory_id,
         factory_country := data.factory_country p.2.factory_id,
         hub_id := p.2.hub_id, hub_name := data.hub_name p.2.hub_id,
         hub_city := data.hub_city p.2.hub_id, cost_per_unit := p.2.total_landed_cost,
         effective_cost_per_unit := p.2.effective_cost, transit_days := p.2.transit_days,
         composite_score := pyRoundTo p.2.composite_score 4 } : Tier2Entry))
      = (fun i : ℕ => i + 2) ∘ Prod.fst := rfl
  rw [h, ← List.map_map, List.enum_map_fst]

/-- C8 counterexample: on dataC the two runner-up flows have identical cost
and transit days, hence identical composite scores; Tier 2 lists both, so
it is sorted but not strictly sorted by composite score.  The engineB
answer the result is built from is a genuinely optimal model solution. -/
theorem C8_counterexample :
    IsOptimalAssignment dataC "CAT01" "US" 1000 500 8 5 3 engineB
    ∧ ((rank_flows (solve dataC "CAT01" "US" 1000 8 5 3 500 engineB) dataC "US"
          8 5 3 none).other_available.map (fun t => t.composite_score)) = [11/16, 11/16]
    ∧ ¬ List.Pairwise (fun a b => a < b)
        ((rank_flows (solve dataC "CAT01" "US" 1000 8 5 3 500 engineB) dataC "US"
          8 5 3 none).other_available.map (fun t => t.composite_score)) := by
  refine ⟨⟨by with_unfolding_all decide, ?_⟩, by with_unfolding_all rfl,
    by with_unfolding_all decide⟩
  intro other hother
  obtain ⟨hnn, hyb, hmeet, hfc, hhc, hact, hmb⟩ := hother
  have h3 : feasibleCount dataC "CAT01" "US" = 3 := by with_unfolding_all rfl
  have hs0 : effective_cost (dataC.get_feasible_flows "CAT01" "US") dataC "US" 8 5 3
      (flowAt dataC "CAT01" "US" 0) = 3/16 := by with_unfolding_all decide
  have hs1 : effective_cost (dataC.get_feasible_flows "CAT01" "US") dataC "US" 8 5 3
      (flowAt dataC "CAT01" "US" 1) = 11/16 := by with_unfolding_all decide
  have hs2 : effective_cost (dataC.get_feasible_flows "CAT01" "US") dataC "US" 8 5 3
      (flowAt dataC "CAT01" "US" 2) = 11/16 := by with_unfolding_all decide
  have hn1 : 0 ≤ other.x 1 := hnn 1 (by rw [h3]; omega)
  have hn2 : 0 ≤ other.x 2 := hnn 2 (by rw [h3]; omega)
  rw [h3] at hmeet
  simp only [List.range_succ, List.range_zero, List.nil_append, List.cons_append,
    List.map_cons, List.map_nil, List.sum_cons, List.sum_nil] at hmeet
  unfold objectiveValue
  rw [h3]
  simp only [List.range_succ, List.range_zero, List.nil_append, List.cons_append,
    List.map_cons, List.map_nil, List.sum_cons, List.sum_nil, hs0, hs1, hs2]
  have hx0 : engineB.x 0 = 1000 := by with_unfolding_all rfl
  have hx1 : engineB.x 1 = 0 := by with_unfolding_all rfl
  have hx2 : engineB.x 2 = 0 := by with_unfolding_all rfl
  rw [hx0, hx1, hx2]
  have hv : ((1000 : ℤ) : ℚ) = 1000 := by norm_num
  rw [hv] at hmeet
  linarith

/-- C8 amended: every Tier 2 entry comes from a feasible flow whose
(origin, hub) pair is not chosen in Tier 1, Tier 2 has at most three
entries, its composite scores are sorted in non-decreasing (not
necessarily strictly increasing) order, and its display ranks are
sequential starting at 2. -/
theorem C8_tier2_properties (result : SolverResult) (data : SupplyChainData)
    (country_code : String) (cost_weight time_weight regional_weight : ℚ)
    (category_id : Option String) :
    (∀ t ∈ (rank_flows result data country_code cost_weight time_weight regional_weight
        category_id).other_available,
      (t.factory_id, t.hub_id) ∈ result.feasible_flows.map (fun f => (f.factory_id, f.hub_id))
      ∧ (t.factory_id, t.hub_id) ∉ chosenKeys result)
    ∧ (rank_flows result data country_code cost_weight time_weight regional_weight
        category_id).other_available.length ≤ 3
    ∧ List.Pairwise (fun a b => a ≤ b)
        ((rank_flows result data country_code cost_weight time_weight regional_weight
          category_id).other_available.map (fun t => t.composite_score))
    ∧ (rank_flows result data country_code cost_weight time_weight regional_weight
        category_id).other_available.map (fun t => t.rank)
      = (List.range (rank_flows result data country_code cost_weight time_weight
          regional_weight category_id).other_available.length).map (fun i => i + 2) := by
  unfold rank_flows
  by_cases hne : result.feasible_flows.isEmpty
  · rw [if_pos hne]
    exact ⟨by simp, by simp, by simp, by simp⟩
  · rw [if_neg hne]
    dsimp only
    refine ⟨?_, ?_, ?_, ?_⟩
    · intro t ht
      obtain ⟨r, hr, hfid, hhid⟩ := mem_mkTier2_pair data _ t ht
      have hrem : r ∈ remainingSorted (scoredForRank result data country_code cost_weight
          time_weight regional_weight) (chosenKeys result) :=
        List.Sublist.mem hr (List.take_sublist 3 _)
      unfold remainingSorted at hrem
      rw [mem_insertionSort] at hrem
      obtain ⟨hmem2, hpred⟩ := List.mem_filter.mp hrem
      constructor
      · unfold scoredForRank at hmem2
        obtain ⟨f, hf2, hfr⟩ := List.mem_map.mp hmem2
        apply List.mem_map.mpr
        refine ⟨f, hf2, ?_⟩
        rw [hfid, hhid, ← hfr]
      · intro hcontra
        rw [hfid, hhid] at hcontra
        simp at hpred
        exact hpred hcontra
    · rw [mkTier2_length, List.length_take]
      exact min_le_left 3 _
    · rw [mkTier2_scores]
      apply List.pairwise_map.mpr
      have hsorted : List.Pairwise (fun u v => scoreLe u v = true)
          (remainingSorted (scoredForRank result data country_code cost_weight time_weight
            regional_weight) (chosenKeys result)) := by
        unfold remainingSorted
        exact pairwise_insertionSort scoreLe scoreLe_total scoreLe_trans _
      have htake := List.Pairwise.sublist (List.take_sublist 3 _) hsorted
      exact htake.imp (fun hab => pyRoundTo_mono 4 (of_decide_eq_true hab))
    · rw [mkTier2_ranks, mkTier2_length]

/-- C8 witness: on the dataC result Tier 2 is nonempty, its first entry is
a feasible non-chosen pair, it has at most three entries and sequential
ranks from 2. -/
theorem C8_tier2_properties_witness :
    (((rank_flows (solve dataC "CAT01" "US" 1000 8 5 3 500 engineB) dataC "US" 8 5 3
          none).other_available.getD 0 default).factory_id,
      ((rank_flows (solve dataC "CAT01" "US" 1000 8 5 3 500 engineB) dataC "US" 8 5 3
          none).other_available.getD 0 default).hub_id)
        ∈ (solve dataC "CAT01" "US" 1000 8 5 3 500 engineB).feasible_flows.map
          (fun f => (f.factory_id, f.hub_id))
    ∧ (rank_flows (solve dataC "CAT01" "US" 1000 8 5 3 500 engineB) dataC "US" 8 5 3
        none).other_available.length ≤ 3
    ∧ (rank_flows (solve dataC "CAT01" "US" 1000 8 5 3 500 engineB) dataC "US" 8 5 3
        none).other_available.map (fun t => t.rank)
      = (List.range (rank_flows (solve dataC "CAT01" "US" 1000 8 5 3 500 engineB) dataC
          "US" 8 5 3 none).other_available.length).map (fun i => i + 2) :=
  ⟨((C8_tier2_properties (solve dataC "CAT01" "US" 1000 8 5 3 500 engineB) dataC "US"
      8 5 3 none).1 _ (by with_unfolding_all decide)).1,
   (C8_tier2_properties (solve dataC "CAT01" "US" 1000 8 5 3 500 engineB) dataC "US"
      8 5 3 none).2.1,
   (C8_tier2_properties (solve dataC "CAT01" "US" 1000 8 5 3 500 engineB) dataC "US"
      8 5 3 none).2.2.2⟩

theorem not_mem_of_bnot_contains {α : Type} [BEq α] [LawfulBEq α] {l : List α} {x : α}
    (h : (!(l.contains x)) = true) : x ∉ l := by
  intro hx
  have h2 : l.contains x = true := by
    unfold List.contains
    exact List.elem_iff.mpr hx
  rw [h2] at h
  exact Bool.noConfusion h

theorem bnot_contains_of_not_mem {α : Type} [BEq α] [LawfulBEq α] {l : List α} {x : α}
    (h : x ∉ l) : (!(l.contains x)) = true := by
  cases hc : l.contains x
  · rfl
  · exfalso
    apply h
    unfold List.contains at hc
    exact List.elem_iff.mp hc

theorem scoredForRank_ids (result : SolverResult) (data : SupplyChainData)
    (country_code : String) (cost_weight time_weight regional_weight : ℚ) :
    (scoredForRank result data country_code cost_weight time_weight regional_weight).map
        (fun r => r.factory_id)
      = result.feasible_flows.map (fun f => f.factory_id) := by
  simp [scoredForRank, List.map_map]

theorem mem_mkTier3Available_ids (data : SupplyChainData) (rows : List Flow)
    (t : Tier3Entry) (ht : t ∈ mkTier3Available data rows) :
    ∃ r ∈ rows, t.factory_id = r.factory_id := by
  obtain ⟨r, hr, hte⟩ := List.mem_map.mp ht
  exact ⟨r, hr, by rw [← hte]⟩

/-- C2 counterexample: in dataB the optimal allocation uses flow (F1, H1),
while Tier 2 lists the distinct-pair flow (F1, H2); origin F1 therefore
appears in both Tier 1 and Tier 2, so the tiers are not pairwise disjoint
by origin id.  The engineB answer is a genuinely optimal model solution. -/
theorem C2_counterexample :
    IsOptimalAssignment dataB "CAT01" "US" 1000 500 8 5 3 engineB
    ∧ "F1" ∈ (rank_flows (solve dataB "CAT01" "US" 1000 8 5 3 500 engineB) dataB "US"
        8 5 3 none).chosen_flows.map (fun t => t.factory_id)
    ∧ "F1" ∈ (rank_flows (solve dataB "CAT01" "US" 1000 8 5 3 500 engineB) dataB "US"
        8 5 3 none).other_available.map (fun t => t.factory_id) := by
  refine ⟨⟨by with_unfolding_all decide, ?_⟩, by with_unfolding_all decide,
    by with_unfolding_all decide⟩
  intro other hother
  obtain ⟨hnn, hyb, hmeet, hfc, hhc, hact, hmb⟩ := hother
  have h3 : feasibleCount dataB "CAT01" "US" = 3 := by with_unfolding_all rfl
  have hs0 : effective_cost (dataB.get_feasible_flows "CAT01" "US") dataB "US" 8 5 3
      (flowAt dataB "CAT01" "US" 0) = 3/16 := by with_unfolding_all decide
  have hs1 : effective_cost (dataB.get_feasible_flows "CAT01" "US") dataB "US" 8 5 3
      (flowAt dataB "CAT01" "US" 1) = 7/16 := by with_unfolding_all decide
  have hs2 : effective_cost (dataB.get_feasible_flows "CAT01" "US") dataB "US" 8 5 3
      (flowAt dataB "CAT01" "US" 2) = 11/16 := by with_unfolding_all decide
  have hn1 : 0 ≤ other.x 1 := hnn 1 (by rw [h3]; omega)
  have hn2 : 0 ≤ other.x 2 := hnn 2 (by rw [h3]; omega)
  rw [h3] at hmeet
  simp only [List.range_succ, List.range_zero, List.nil_append, List.cons_append,
    List.map_cons, List.map_nil, List.sum_cons, List.sum_nil] at hmeet
  unfold objectiveValue
  rw [h3]
  simp only [List.range_succ, List.range_zero, List.nil_append, List.cons_append,
    List.map_cons, List.map_nil, List.sum_cons, List.sum_nil, hs0, hs1, hs2]
  have hx0 : engineB.x 0 = 1000 := by with_unfolding_all rfl
  have hx1 : engineB.x 1 = 0 := by with_unfolding_all rfl
  have hx2 : engineB.x 2 = 0 := by with_unfolding_all rfl
  rw [hx0, hx1, hx2]
  have hv : ((1000 : ℤ) : ℚ) = 1000 := by norm_num
  rw [hv] at hmeet
  linarith

/-- C2 amended: on a nonempty feasible set, Tier 3 origins are disjoint
from Tier 1 and Tier 2 origins, Tier 2 excludes Tier 1 (origin, hub) pairs
(though it may repeat a Tier 1 origin through a different hub, as the
counterexample shows), and the three tiers together cover every origin of
the feasible set, extended to every catalog origin when a category is
supplied. -/
theorem C2_tier_partition (result : SolverResult) (data : SupplyChainData)
    (country_code : String) (cost_weight time_weight regional_weight : ℚ)
    (category_id : Option String) (hne : result.feasible_flows ≠ []) :
    (∀ t ∈ (rank_flows result data country_code cost_weight time_weight regional_weight category_id).alternative_factories,
        t.factory_id ∉ (rank_flows result data country_code cost_weight time_weight regional_weight category_id).chosen_flows.map (fun c => c.factory_id)
        ∧ t.factory_id ∉ (rank_flows result data country_code cost_weight time_weight regional_weight category_id).other_available.map (fun c => c.factory_id))
    ∧ (∀ t ∈ (rank_flows result data country_code cost_weight time_weight regional_weight category_id).other_available, (t.factory_id, t.hub_id) ∉ chosenKeys result)
    ∧ (∀ fid ∈ result.feasible_flows.map (fun f => f.factory_id),
        fid ∈ (rank_flows result data country_code cost_weight time_weight regional_weight category_id).chosen_flows.map (fun c => c.factory_id)
        ∨ fid ∈ (rank_flows result data country_code cost_weight time_weight regional_weight category_id).other_available.map (fun c => c.factory_id)
        ∨ fid ∈ (rank_flows result data country_code cost_weight time_weight regional_weight category_id).alternative_factories.map (fun c => c.factory_id))
    ∧ (∀ cat : String, category_id = some cat →
        ∀ fid ∈ data.factories.map (fun f => f.factory_id),
          fid ∈ (rank_flows result data country_code cost_weight time_weight regional_weight category_id).chosen_flows.map (fun c => c.factory_id)
          ∨ fid ∈ (rank_flows result data country_code cost_weight time_weight regional_weight category_id).other_available.map (fun c => c.factory_id)
          ∨ fid ∈ (rank_flows result data country_code cost_weight time_weight regional_weight category_id).alternative_factories.map (fun c => c.factory_id)) := by
  have hne2 : ¬ result.feasible_flows.isEmpty = true := by
    simpa [List.isEmpty_iff] using hne
  unfold rank_flows
  rw [if_neg hne2]
  dsimp only
  refine ⟨?_, ?_, ?_, ?_⟩
  · -- Tier 3 origins appear in neither Tier 1 nor Tier 2
    have hbase : ∀ t ∈ mkTier3Available data (dropDuplicatesBy (fun r => r.factory_id)
        (insertionSort scoreLe ((remainingSorted (scoredForRank result data country_code
          cost_weight time_weight regional_weight) (chosenKeys result)).filter
          (fun r => !((result.chosen_flows.map (fun cf => cf.factory_id)
            ++ ((remainingSorted (scoredForRank result data country_code cost_weight
              time_weight regional_weight) (chosenKeys result)).take 3).map
                (fun r => r.factory_id)).contains r.factory_id))))),
        t.factory_id ∉ result.chosen_flows.map (fun cf => cf.factory_id)
          ∧ t.factory_id ∉ ((remainingSorted (scoredForRank result data country_code
              cost_weight time_weight regional_weight) (chosenKeys result)).take 3).map
                (fun r => r.factory_id) := by
      intro t ht
      obtain ⟨r, hr, hrid⟩ := mem_mkTier3Available_ids data _ t ht
      have h1 := mem_of_mem_dropDuplicatesBy _ _ _ hr
      rw [mem_insertionSort] at h1
      obtain ⟨h2, hpred⟩ := List.mem_filter.mp h1
      have hnotin := not_mem_of_bnot_contains hpred
      rw [hrid]
      exact ⟨fun hc => hnotin (List.mem_append.mpr (Or.inl hc)),
        fun hc => hnotin (List.mem_append.mpr (Or.inr hc))⟩
    intro t ht
    rw [mkTier1_ids, mkTier2_ids]
    cases category_id with
    | none => exact hbase t ht
    | some cat =>
      rcases List.mem_append.mp ht with hb | hblocked
      · exact hbase t hb
      · obtain ⟨fid, hfid, hte⟩ := List.mem_map.mp hblocked
        have h1 := (mem_insertionSort strLe _ fid).mp hfid
        obtain ⟨h2, hpred⟩ := List.mem_filter.mp h1
        rw [Bool.and_eq_true] at hpred
        obtain ⟨hp1, hp2⟩ := hpred
        have hnotin := not_mem_of_bnot_contains hp1
        have htid : t.factory_id = fid := by rw [← hte, mkBlockedEntry_factory_id]
        rw [htid]
        exact ⟨fun hc => hnotin (List.mem_append.mpr (Or.inl hc)),
          fun hc => hnotin (List.mem_append.mpr (Or.inr hc))⟩
  · -- Tier 2 excludes chosen (origin, hub) pairs
    intro t ht
    obtain ⟨r, hr, hfid, hhid⟩ := mem_mkTier2_pair data _ t ht
    have hrem : r ∈ remainingSorted (scoredForRank result data country_code cost_weight
        time_weight regional_weight) (chosenKeys result) :=
      List.Sublist.mem hr (List.take_sublist 3 _)
    unfold remainingSorted at hrem
    rw [mem_insertionSort] at hrem
    obtain ⟨hmem2, hpred⟩ := List.mem_filter.mp hrem
    rw [hfid, hhid]
    exact not_mem_of_bnot_contains hpred
  · -- every origin of the feasible set is covered
    intro fid hfid
    by_cases hT1 : fid ∈ result.chosen_flows.map (fun c => c.factory_id)
    · left
      rw [mkTier1_ids]
      exact hT1
    · have hfid2 : fid ∈ (scoredForRank result data country_code cost_weight time_weight
          regional_weight).map (fun r => r.factory_id) := by
        rw [scoredForRank_ids]
        exact hfid
      obtain ⟨r, hr, hrfid⟩ := List.mem_map.mp hfid2
      have hnokey : ¬ (r.factory_id, r.hub_id) ∈ chosenKeys result := by
        intro hc
        obtain ⟨cf, hcf, hcfe⟩ := List.mem_map.mp hc
        apply hT1
        apply List.mem_map.mpr
        refine ⟨cf, hcf, ?_⟩
        have : cf.factory_id = r.factory_id := congrArg Prod.fst hcfe
        rw [this, hrfid]
      have hfilter : r ∈ (scoredForRank result data country_code cost_weight time_weight
          regional_weight).filter
          (fun r => !((chosenKeys result).contains (r.factory_id, r.hub_id))) :=
        List.mem_filter.mpr ⟨hr, bnot_contains_of_not_mem hnokey⟩
      have hrem : r ∈ remainingSorted (scoredForRank result data country_code cost_weight
          time_weight regional_weight) (chosenKeys result) := by
        unfold remainingSorted
        rw [mem_insertionSort]
        exact hfilter
      by_cases hT2 : fid ∈ ((remainingSorted (scoredForRank result data country_code
          cost_weight time_weight regional_weight) (chosenKeys result)).take 3).map
            (fun r => r.factory_id)
      · right
        left
        rw [mkTier2_ids]
        exact hT2
      · right
        right
        have hused : ¬ fid ∈ (result.chosen_flows.map (fun cf => cf.factory_id)
            ++ ((remainingSorted (scoredForRank result data country_code cost_weight
              time_weight regional_weight) (chosenKeys result)).take 3).map
                (fun r => r.factory_id)) := by
          intro hc
          rcases List.mem_append.mp hc with h | h
          · exact hT1 h
          · exact hT2 h
        have hcand : r ∈ (remainingSorted (scoredForRank result data country_code
            cost_weight time_weight regional_weight) (chosenKeys result)).filter
            (fun r => !((result.chosen_flows.map (fun cf => cf.factory_id)
              ++ ((remainingSorted (scoredForRank result data country_code cost_weight
                time_weight regional_weight) (chosenKeys result)).take 3).map
                  (fun r => r.factory_id)).contains r.factory_id)) := by
          apply List.mem_filter.mpr
          refine ⟨hrem, ?_⟩
          apply bnot_contains_of_not_mem
          rw [hrfid]
          exact hused
        have hsorted : r ∈ insertionSort scoreLe ((remainingSorted (scoredForRank result
            data country_code cost_weight time_weight regional_weight)
            (chosenKeys result)).filter
            (fun r => !((result.chosen_flows.map (fun cf => cf.factory_id)
              ++ ((remainingSorted (scoredForRank result data country_code cost_weight
                time_weight regional_weight) (chosenKeys result)).take 3).map
                  (fun r => r.factory_id)).contains r.factory_id))) := by
          rw [mem_insertionSort]
          exact hcand
        obtain ⟨z, hz, hzfid⟩ := key_mem_dropDuplicatesBy (fun r => r.factory_id) _ fid
          ⟨r, hsorted, hrfid⟩
        have hzmem : fid ∈ (mkTier3Available data (dropDuplicatesBy (fun r => r.factory_id)
            (insertionSort scoreLe ((remainingSorted (scoredForRank result data country_code
              cost_weight time_weight regional_weight) (chosenKeys result)).filter
              (fun r => !((result.chosen_flows.map (fun cf => cf.factory_id)
                ++ ((remainingSorted (scoredForRank result data country_code cost_weight
                  time_weight regional_weight) (chosenKeys result)).take 3).map
                    (fun r => r.factory_id)).contains r.factory_id)))))).map
            (fun c => c.factory_id) := by
          rw [mkTier3_ids]
          exact List.mem_map.mpr ⟨z, hz, hzfid⟩
        cases category_id with
        | none => exact hzmem
        | some cat =>
          rw [List.map_append]
          exact List.mem_append.mpr (Or.inl hzmem)
  · -- with a category, every catalog origin is covered
    intro cat hcat fid hfid
    subst hcat
    by_cases hT1 : fid ∈ result.chosen_flows.map (fun c => c.factory_id)
    · left
      rw [mkTier1_ids]
      exact hT1
    · by_cases hT2 : fid ∈ ((remainingSorted (scoredForRank result data country_code
          cost_weight time_weight regional_weight) (chosenKeys result)).take 3).map
            (fun r => r.factory_id)
      · right
        left
        rw [mkTier2_ids]
        exact hT2
      · right
        right
        rw [List.map_append]
        by_cases hT3 : fid ∈ (dropDuplicatesBy (fun r => r.factory_id)
            (insertionSort scoreLe ((remainingSorted (scoredForRank result data country_code
              cost_weight time_weight regional_weight) (chosenKeys result)).filter
              (fun r => !((result.chosen_flows.map (fun cf => cf.factory_id)
                ++ ((remainingSorted (scoredForRank result data country_code cost_weight
                  time_weight regional_weight) (chosenKeys result)).take 3).map
                    (fun r => r.factory_id)).contains r.factory_id))))).map
            (fun r => r.factory_id)
        · apply List.mem_append.mpr
          left
          rw [mkTier3_ids]
          exact hT3
        · apply List.mem_append.mpr
          right
          have h1 : ¬ fid ∈ (result.chosen_flows.map (fun cf => cf.factory_id)
              ++ ((remainingSorted (scoredForRank result data country_code cost_weight
                time_weight regional_weight) (chosenKeys result)).take 3).map
                  (fun r => r.factory_id)) := by
            intro hc
            rcases List.mem_append.mp hc with h | h
            · exact hT1 h
            · exact hT2 h
          apply List.mem_map.mpr
          refine ⟨mkBlockedEntry data cat country_code fid, ?_,
            mkBlockedEntry_factory_id data cat country_code fid⟩
          apply List.mem_map.mpr
          refine ⟨fid, ?_, rfl⟩
          rw [mem_insertionSort]
          apply List.mem_filter.mpr
          constructor
          · exact List.mem_dedup.mpr hfid
          · rw [Bool.and_eq_true]
            exact ⟨bnot_contains_of_not_mem h1, bnot_contains_of_not_mem hT3⟩

/-- C2 witness: on the dataB result with category context, the feasible
origin F2 and the routeless catalog origin F9 are each covered by a tier,
and the first Tier 3 entry (F9) appears in neither Tier 1 nor Tier 2. -/
theorem C2_tier_partition_witness :
    ("F2" ∈ (rank_flows (solve dataB "CAT01" "US" 1000 8 5 3 500 engineB) dataB "US" 8 5 3
        (some "CAT01")).chosen_flows.map (fun c => c.factory_id)
      ∨ "F2" ∈ (rank_flows (solve dataB "CAT01" "US" 1000 8 5 3 500 engineB) dataB "US" 8 5 3
        (some "CAT01")).other_available.map (fun c => c.factory_id)
      ∨ "F2" ∈ (rank_flows (solve dataB "CAT01" "US" 1000 8 5 3 500 engineB) dataB "US" 8 5 3
        (some "CAT01")).alternative_factories.map (fun c => c.factory_id))
    ∧ ("F9" ∈ (rank_flows (solve dataB "CAT01" "US" 1000 8 5 3 500 engineB) dataB "US" 8 5 3
        (some "CAT01")).chosen_flows.map (fun c => c.factory_id)
      ∨ "F9" ∈ (rank_flows (solve dataB "CAT01" "US" 1000 8 5 3 500 engineB) dataB "US" 8 5 3
        (some "CAT01")).other_available.map (fun c => c.factory_id)
      ∨ "F9" ∈ (rank_flows (solve dataB "CAT01" "US" 1000 8 5 3 500 engineB) dataB "US" 8 5 3
        (some "CAT01")).alternative_factories.map (fun c => c.factory_id))
    ∧ (((rank_flows (solve dataB "CAT01" "US" 1000 8 5 3 500 engineB) dataB "US" 8 5 3
        (some "CAT01")).alternative_factories.getD 0 default).factory_id
          ∉ (rank_flows (solve dataB "CAT01" "US" 1000 8 5 3 500 engineB) dataB "US" 8 5 3
        (some "CAT01")).chosen_flows.map (fun c => c.factory_id)
      ∧ ((rank_flows (solve dataB "CAT01" "US" 1000 8 5 3 500 engineB) dataB "US" 8 5 3
        (some "CAT01")).alternative_factories.getD 0 default).factory_id
          ∉ (rank_flows (solve dataB "CAT01" "US" 1000 8 5 3 500 engineB) dataB "US" 8 5 3
        (some "CAT01")).other_available.map (fun c => c.factory_id)) :=
  ⟨(C2_tier_partition (solve dataB "CAT01" "US" 1000 8 5 3 500 engineB) dataB "US" 8 5 3
      (some "CAT01") (by with_unfolding_all decide)).2.2.1 "F2" (by with_unfolding_all decide),
   (C2_tier_partition (solve dataB "CAT01" "US" 1000 8 5 3 500 engineB) dataB "US" 8 5 3
      (some "CAT01") (by with_unfolding_all decide)).2.2.2 "CAT01" rfl "F9" (by with_unfolding_all decide),
   (C2_tier_partition (solve dataB "CAT01" "US" 1000 8 5 3 500 engineB) dataB "US" 8 5 3
      (some "CAT01") (by with_unfolding_all decide)).1 _ (by with_unfolding_all decide)⟩

theorem objectiveValue_decomp (data : SupplyChainData) (category_id country_code : String)
    (cost_weight time_weight regional_weight : ℚ) (x : ℕ → ℚ) :
    objectiveValue data category_id country_code cost_weight time_weight regional_weight x
      = (cost_weight / (cost_weight + time_weight + regional_weight))
          * (∑ i ∈ Finset.range (feasibleCount data category_id country_code), x i * cost_norm (data.get_feasible_flows category_id country_code) (flowAt data category_id country_code i))
        + (time_weight / (cost_weight + time_weight + regional_weight))
          * (∑ i ∈ Finset.range (feasibleCount data category_id country_code), x i * time_norm (data.get_feasible_flows category_id country_code) (flowAt data category_id country_code i))
        + (regional_weight / (cost_weight + time_weight + regional_weight))
          * (∑ i ∈ Finset.range (feasibleCount data category_id country_code), x i * regional_penalty data country_code (flowAt data category_id country_code i)) := by
  unfold objectiveValue
  rw [range_map_sum_eq]
  have h1 : ∀ i ∈ Finset.range (feasibleCount data category_id country_code),
      x i * effective_cost (data.get_feasible_flows category_id country_code) data country_code cost_weight time_weight regional_weight (flowAt data category_id country_code i)
        = (cost_weight / (cost_weight + time_weight + regional_weight))
            * (x i * cost_norm (data.get_feasible_flows category_id country_code) (flowAt data category_id country_code i))
          + (time_weight / (cost_weight + time_weight + regional_weight))
            * (x i * time_norm (data.get_feasible_flows category_id country_code) (flowAt data category_id country_code i))
          + (regional_weight / (cost_weight + time_weight + regional_weight))
            * (x i * regional_penalty data country_code (flowAt data category_id country_code i)) := by
    intro i hi
    unfold effective_cost
    ring
  rw [Finset.sum_congr rfl h1, Finset.sum_add_distrib, Finset.sum_add_distrib,
    ← Finset.mul_sum, ← Finset.mul_sum, ← Finset.mul_sum]

/-- C10: raising the time weight while holding the cost and regional
weights, the request and the data fixed never increases the
volume-weighted average transit days of an optimal continuous allocation:
for any optimal engine answer at the lower time weight and any optimal
engine answer at the strictly higher one, the latter average is at most
the former. -/
theorem C10_time_weight_monotone (data : SupplyChainData)
    (category_id country_code : String) (volume min_batch : ℤ)
    (cost_weight time_weight time_weight2 regional_weight : ℚ) (eA eB : EngineResponse)
    (hvol : 0 < volume)
    (hW : 0 < cost_weight + time_weight + regional_weight)
    (hW2 : 0 < cost_weight + time_weight2 + regional_weight)
    (htw : time_weight < time_weight2)
    (hA : IsOptimalAssignment data category_id country_code volume min_batch cost_weight
      time_weight regional_weight eA)
    (hB : IsOptimalAssignment data category_id country_code volume min_batch cost_weight
      time_weight2 regional_weight eB) :
    volumeWeightedAvgTransitDays data category_id country_code volume eB.x
      ≤ volumeWeightedAvgTransitDays data category_id country_code volume eA.x := by
  obtain ⟨hsatA, hoptA⟩ := hA
  obtain ⟨hsatB, hoptB⟩ := hB
  have hmeetA : ∑ i ∈ Finset.range (feasibleCount data category_id country_code), eA.x i = (volume : ℚ) := by
    have h := hsatA.2.2.1
    rwa [range_map_sum_eq] at h
  have hmeetB : ∑ i ∈ Finset.range (feasibleCount data category_id country_code), eB.x i = (volume : ℚ) := by
    have h := hsatB.2.2.1
    rwa [range_map_sum_eq] at h
  have h1 := hoptA eB hsatB
  have h2 := hoptB eA hsatA
  rw [objectiveValue_decomp, objectiveValue_decomp] at h1
  rw [objectiveValue_decomp, objectiveValue_decomp] at h2
  have e1 : ∀ u v w : ℚ,
      (cost_weight / (cost_weight + time_weight + regional_weight)) * u
        + (time_weight / (cost_weight + time_weight + regional_weight)) * v
        + (regional_weight / (cost_weight + time_weight + regional_weight)) * w
      = (cost_weight * u + time_weight * v + regional_weight * w)
          / (cost_weight + time_weight + regional_weight) := by
    intro u v w
    ring
  have e2 : ∀ u v w : ℚ,
      (cost_weight / (cost_weight + time_weight2 + regional_weight)) * u
        + (time_weight2 / (cost_weight + time_weight2 + regional_weight)) * v
        + (regional_weight / (cost_weight + time_weight2 + regional_weight)) * w
      = (cost_weight * u + time_weight2 * v + regional_weight * w)
          / (cost_weight + time_weight2 + regional_weight) := by
    intro u v w
    ring
  rw [e1, e1] at h1
  rw [e2, e2] at h2
  have h1n := (div_le_div_iff_of_pos_right hW).mp h1
  have h2n := (div_le_div_iff_of_pos_right hW2).mp h2
  have hsum : time_weight * (∑ i ∈ Finset.range (feasibleCount data category_id country_code), eA.x i * time_norm (data.get_feasible_flows category_id country_code) (flowAt data category_id country_code i)) + time_weight2 * (∑ i ∈ Finset.range (feasibleCount data category_id country_code), eB.x i * time_norm (data.get_feasible_flows category_id country_code) (flowAt data category_id country_code i))
      ≤ time_weight * (∑ i ∈ Finset.range (feasibleCount data category_id country_code), eB.x i * time_norm (data.get_feasible_flows category_id country_code) (flowAt data category_id country_code i)) + time_weight2 * (∑ i ∈ Finset.range (feasibleCount data category_id country_code), eA.x i * time_norm (data.get_feasible_flows category_id country_code) (flowAt data category_id country_code i)) := by linarith
  have hTle : (∑ i ∈ Finset.range (feasibleCount data category_id country_code), eB.x i * time_norm (data.get_feasible_flows category_id country_code) (flowAt data category_id country_code i)) ≤ (∑ i ∈ Finset.range (feasibleCount data category_id country_code), eA.x i * time_norm (data.get_feasible_flows category_id country_code) (flowAt data category_id country_code i)) := by
    by_contra hcon
    push_neg at hcon
    have hpos := mul_pos (sub_pos.mpr htw) (sub_pos.mpr hcon)
    have hexp : (time_weight2 - time_weight) * ((∑ i ∈ Finset.range (feasibleCount data category_id country_code), eB.x i * time_norm (data.get_feasible_flows category_id country_code) (flowAt data category_id country_code i)) - (∑ i ∈ Finset.range (feasibleCount data category_id country_code), eA.x i * time_norm (data.get_feasible_flows category_id country_code) (flowAt data category_id country_code i)))
        = (time_weight * (∑ i ∈ Finset.range (feasibleCount data category_id country_code), eA.x i * time_norm (data.get_feasible_flows category_id country_code) (flowAt data category_id country_code i)) + time_weight2 * (∑ i ∈ Finset.range (feasibleCount data category_id country_code), eB.x i * time_norm (data.get_feasible_flows category_id country_code) (flowAt data category_id country_code i)))
          - (time_weight * (∑ i ∈ Finset.range (feasibleCount data category_id country_code), eB.x i * time_norm (data.get_feasible_flows category_id country_code) (flowAt data category_id country_code i)) + time_weight2 * (∑ i ∈ Finset.range (feasibleCount data category_id country_code), eA.x i * time_norm (data.get_feasible_flows category_id country_code) (flowAt data category_id country_code i))) := by ring
    rw [hexp] at hpos
    linarith
  have hvq : (0 : ℚ) < (volume : ℚ) := by exact_mod_cast hvol
  unfold volumeWeightedAvgTransitDays
  rw [range_map_sum_eq, range_map_sum_eq]
  apply (div_le_div_iff_of_pos_right hvq).mpr
  by_cases hrange : 0 < (seriesMax ((data.get_feasible_flows category_id country_code).map (fun g => ((g.transit_days : ℤ) : ℚ)))) - (seriesMin ((data.get_feasible_flows category_id country_code).map (fun g => ((g.transit_days : ℤ) : ℚ))))
  · have hTexp : ∀ x : ℕ → ℚ, (∑ i ∈ Finset.range (feasibleCount data category_id country_code), x i = (volume : ℚ)) →
        (∑ i ∈ Finset.range (feasibleCount data category_id country_code), x i * time_norm (data.get_feasible_flows category_id country_code) (flowAt data category_id country_code i))
          = ((∑ i ∈ Finset.range (feasibleCount data category_id country_code), x i * (((flowAt data category_id country_code i).transit_days : ℤ) : ℚ))
              - (seriesMin ((data.get_feasible_flows category_id country_code).map (fun g => ((g.transit_days : ℤ) : ℚ)))) * (volume : ℚ)) / ((seriesMax ((data.get_feasible_flows category_id country_code).map (fun g => ((g.transit_days : ℤ) : ℚ)))) - (seriesMin ((data.get_feasible_flows category_id country_code).map (fun g => ((g.transit_days : ℤ) : ℚ))))) := by
      intro x hx
      have hcong : ∀ i ∈ Finset.range (feasibleCount data category_id country_code),
          x i * time_norm (data.get_feasible_flows category_id country_code) (flowAt data category_id country_code i)
            = (x i * (((flowAt data category_id country_code i).transit_days : ℤ) : ℚ) - (seriesMin ((data.get_feasible_flows category_id country_code).map (fun g => ((g.transit_days : ℤ) : ℚ)))) * x i) / ((seriesMax ((data.get_feasible_flows category_id country_code).map (fun g => ((g.transit_days : ℤ) : ℚ)))) - (seriesMin ((data.get_feasible_flows category_id country_code).map (fun g => ((g.transit_days : ℤ) : ℚ))))) := by
        intro i hi
        unfold time_norm
        rw [if_pos hrange]
        ring
      rw [Finset.sum_congr rfl hcong, ← Finset.sum_div, Finset.sum_sub_distrib,
        ← Finset.mul_sum, hx]
    have hTA2 := hTexp eA.x hmeetA
    have hTB2 := hTexp eB.x hmeetB
    rw [hTA2, hTB2] at hTle
    have hD := (div_le_div_iff_of_pos_right hrange).mp hTle
    linarith
  · have hdays : ∀ i ∈ Finset.range (feasibleCount data category_id country_code), (((flowAt data category_id country_code i).transit_days : ℤ) : ℚ) = (seriesMin ((data.get_feasible_flows category_id country_code).map (fun g => ((g.transit_days : ℤ) : ℚ)))) := by
      intro i hi
      have hilt : i < (feasibleCount data category_id country_code) := Finset.mem_range.mp hi
      have hmem : (flowAt data category_id country_code i) ∈ (data.get_feasible_flows category_id country_code) := by
        unfold flowAt
        rw [List.getD_eq_getElem _ _ hilt]
        exact List.getElem_mem _
      have hlo : (seriesMin ((data.get_feasible_flows category_id country_code).map (fun g => ((g.transit_days : ℤ) : ℚ)))) ≤ (((flowAt data category_id country_code i).transit_days : ℤ) : ℚ) :=
        seriesMin_le (List.mem_map.mpr ⟨_, hmem, rfl⟩)
      have hhi : (((flowAt data category_id country_code i).transit_days : ℤ) : ℚ) ≤ (seriesMax ((data.get_feasible_flows category_id country_code).map (fun g => ((g.transit_days : ℤ) : ℚ)))) :=
        le_seriesMax (List.mem_map.mpr ⟨_, hmem, rfl⟩)
      push_neg at hrange
      linarith
    have hDeq : ∀ x : ℕ → ℚ, (∑ i ∈ Finset.range (feasibleCount data category_id country_code), x i = (volume : ℚ)) →
        (∑ i ∈ Finset.range (feasibleCount data category_id country_code), x i * (((flowAt data category_id country_code i).transit_days : ℤ) : ℚ))
          = (seriesMin ((data.get_feasible_flows category_id country_code).map (fun g => ((g.transit_days : ℤ) : ℚ)))) * (volume : ℚ) := by
      intro x hx
      rw [Finset.sum_congr rfl (fun i hi => by rw [hdays i hi]), ← Finset.sum_mul, hx]
      ring
    rw [hDeq eA.x hmeetA, hDeq eB.x hmeetB]

/-- C10 witness: on the single-flow dataE instance the unique feasible
response is optimal for both weight triples (8,5,3) and (8,6,3); the
average transit days under the higher time weight is at most that under
the lower one. -/
theorem C10_time_weight_monotone_witness :
    volumeWeightedAvgTransitDays dataE "CAT01" "US" 1000 engineE.x
      ≤ volumeWeightedAvgTransitDays dataE "CAT01" "US" 1000 engineE.x :=
  C10_time_weight_monotone dataE "CAT01" "US" 1000 500 8 5 6 3 engineE engineE
    (by decide) (by norm_num) (by norm_num) (by norm_num)
    ⟨by with_unfolding_all decide, (by
      intro other hother
      have hmeet := hother.2.2.1
      have h1 : feasibleCount dataE "CAT01" "US" = 1 := by with_unfolding_all rfl
      rw [h1] at hmeet
      simp only [List.range_succ, List.range_zero, List.nil_append, List.cons_append,
        List.map_cons, List.map_nil, List.sum_cons, List.sum_nil, add_zero] at hmeet
      unfold objectiveValue
      rw [h1]
      simp only [List.range_succ, List.range_zero, List.nil_append, List.cons_append,
        List.map_cons, List.map_nil, List.sum_cons, List.sum_nil, add_zero]
      have hx : engineE.x 0 = 1000 := by with_unfolding_all rfl
      have hcast : ((1000 : ℤ) : ℚ) = 1000 := by norm_num
      rw [hcast] at hmeet
      rw [hx, hmeet])⟩
    ⟨by with_unfolding_all decide, (by
      intro other hother
      have hmeet := hother.2.2.1
      have h1 : feasibleCount dataE "CAT01" "US" = 1 := by with_unfolding_all rfl
      rw [h1] at hmeet
      simp only [List.range_succ, List.range_zero, List.nil_append, List.cons_append,
        List.map_cons, List.map_nil, List.sum_cons, List.sum_nil, add_zero] at hmeet
      unfold objectiveValue
      rw [h1]
      simp only [List.range_succ, List.range_zero, List.nil_append, List.cons_append,
        List.map_cons, List.map_nil, List.sum_cons, List.sum_nil, add_zero]
      have hx : engineE.x 0 = 1000 := by with_unfolding_all rfl
      have hcast : ((1000 : ℤ) : ℚ) = 1000 := by norm_num
      rw [hcast] at hmeet
      rw [hx, hmeet])⟩

end SupplyChainPlanner
